import Mathlib

/-!
Verification of the optimizer update kernels in `src/operator/optimizer_op-inl.h`
(SGD, SGD with momentum, mixed-precision SGD, Adam, two RMSProp variants),
covering the dense per-element kernels, the sparse row kernels, the
storage-combination drivers and the dispatch entry points.

Modelling conventions:
* tensor element values are rationals (`ℚ`), so every update formula is exact;
* a dense buffer is a total function `ℕ → ℚ`; a kernel launch over `n`
  elements rewrites the first `n` positions and leaves the rest untouched,
  exactly as `Kernel<...>::Launch(s, n, ...)` maps `Map(i)` over `i ∈ [0, n)`;
* sparse row kernels are modelled as folds over the row range, each row
  fold writing the same cells in the same order as the source row loop;
* `square_root::Map` is an external `mshadow_op` collaborator; it is passed
  in as an abstract function `sqrtF : ℚ → ℚ`, so every theorem about Adam
  and RMSProp holds for any square-root implementation;
* the `OpReqType` write modes and the `KERNEL_ASSIGN` / `Assign` macros are
  modelled by `kernelAssign`.
-/

namespace MxOpt

/-- Modelled from the spec: `OpReqType`, the operator framework's write-mode
enum (declared outside this core) — overwrite, in-place-required, accumulate,
or skip. -/
inductive OpReqType where
  | kNullOp
  | kWriteTo
  | kWriteInplace
  | kAddTo
deriving DecidableEq, Repr

/-- Modelled from the spec: the `KERNEL_ASSIGN(out, req, exp)` /
`Assign(out, req, exp)` macros (defined in the operator framework outside
this core): `kNullOp` leaves the target untouched, `kWriteTo`/`kWriteInplace`
overwrite, `kAddTo` accumulates. -/
def kernelAssign (oldVal : ℚ) (req : OpReqType) (v : ℚ) : ℚ :=
  match req with
  | .kNullOp => oldVal
  | .kWriteTo => v
  | .kWriteInplace => v
  | .kAddTo => oldVal + v

theorem kernelAssign_null (a v : ℚ) : kernelAssign a .kNullOp v = a := rfl

theorem kernelAssign_write (a v : ℚ) : kernelAssign a .kWriteTo v = v := rfl

theorem kernelAssign_writeInplace (a v : ℚ) :
    kernelAssign a .kWriteInplace v = v := rfl

theorem kernelAssign_addTo (a v : ℚ) : kernelAssign a .kAddTo v = a + v := rfl

/-- Modelled from the spec: `mshadow_op::clip::Map(x, bound)`, the element-wise
clip collaborator from `mshadow_op.h` (not under `src/`); its contract is the
one documented on every `clip_gradient`/`clip_weights` field in
`optimizer_op-inl.h`: `grad = max(min(grad, clip_gradient), -clip_gradient)`.
All call sites in the source guard it with `bound >= 0`. -/
def clipMap (x bound : ℚ) : ℚ :=
  max (min x bound) (-bound)

/-- Pointwise write into a buffer, the model of `buf[k] = v`. -/
def writeAt (f : ℕ → ℚ) (k : ℕ) (v : ℚ) : ℕ → ℚ :=
  fun m => if m = k then v else f m

/-! ## Hyperparameter records -/

/-- `SGDParam`: lr, wd, rescale_grad, clip_gradient. -/
structure SGDParam where
  lr : ℚ
  wd : ℚ
  rescale_grad : ℚ
  clip_gradient : ℚ

/-- `SGDMomParam`: lr, momentum, wd, rescale_grad, clip_gradient. -/
structure SGDMomParam where
  lr : ℚ
  momentum : ℚ
  wd : ℚ
  rescale_grad : ℚ
  clip_gradient : ℚ

/-- `AdamParam`: lr, beta1, beta2, epsilon, wd, rescale_grad, clip_gradient. -/
structure AdamParam where
  lr : ℚ
  beta1 : ℚ
  beta2 : ℚ
  epsilon : ℚ
  wd : ℚ
  rescale_grad : ℚ
  clip_gradient : ℚ

/-- `RMSPropAlexParam`. -/
structure RMSPropAlexParam where
  lr : ℚ
  gamma1 : ℚ
  gamma2 : ℚ
  epsilon : ℚ
  wd : ℚ
  rescale_grad : ℚ
  clip_gradient : ℚ
  clip_weights : ℚ

/-- `RMSPropParam` (Tieleman & Hinton variant). -/
structure RMSPropParam where
  lr : ℚ
  gamma1 : ℚ
  epsilon : ℚ
  wd : ℚ
  rescale_grad : ℚ
  clip_gradient : ℚ
  clip_weights : ℚ

/-! ## Dense SGD -/

/-- `SGDKernel::Map(i, ...)`: the value assigned to `out_data[i]`.  The source
branches on `param_clip_gradient >= 0.0f`. -/
def SGDKernelMap (weight grad : ℕ → ℚ) (p : SGDParam) (req : OpReqType)
    (out : ℕ → ℚ) (i : ℕ) : ℚ :=
  if 0 ≤ p.clip_gradient then
    kernelAssign (out i) req
      ((1 - p.lr * p.wd) * weight i -
        p.lr * clipMap (p.rescale_grad * grad i) p.clip_gradient)
  else
    kernelAssign (out i) req
      ((1 - p.lr * p.wd) * weight i - (p.lr * p.rescale_grad) * grad i)

/-- `SGDUpdate`: launches `SGDKernel` over the `n` elements.  The gradient
buffer is a `const` input of the kernel, so it is returned unchanged; the
result is `(grad after the call, out after the call)`. -/
def SGDUpdate (n : ℕ) (weight grad : ℕ → ℚ) (p : SGDParam) (req : OpReqType)
    (out : ℕ → ℚ) : (ℕ → ℚ) × (ℕ → ℚ) :=
  (grad, fun k => if k < n then SGDKernelMap weight grad p req out k else out k)

/-! ## Dense SGD with momentum -/

/-- The new momentum value computed by `SGDMomKernel::Map(i, ...)`; the
assignment `mom_data[i] = ...` is unconditional (not guarded by `req`). -/
def SGDMomKernelMomNew (mom weight grad : ℕ → ℚ) (p : SGDMomParam) (i : ℕ) : ℚ :=
  if 0 ≤ p.clip_gradient then
    p.momentum * mom i - p.lr * p.wd * weight i -
      p.lr * clipMap (p.rescale_grad * grad i) p.clip_gradient
  else
    p.momentum * mom i - p.lr * p.wd * weight i -
      p.lr * p.rescale_grad * grad i

/-- `SGDMomUpdate`: launches `SGDMomKernel` over `n` elements.  Returns
`(grad, mom, out)` after the call; `grad_data` is a `const` input, `mom_data`
is written unconditionally, `out_data` through `KERNEL_ASSIGN(_, req, _)`. -/
def SGDMomUpdate (n : ℕ) (weight grad mom : ℕ → ℚ) (p : SGDMomParam)
    (req : OpReqType) (out : ℕ → ℚ) : (ℕ → ℚ) × (ℕ → ℚ) × (ℕ → ℚ) :=
  (grad,
   fun k => if k < n then SGDMomKernelMomNew mom weight grad p k else mom k,
   fun k => if k < n then
       kernelAssign (out k) req (weight k + SGDMomKernelMomNew mom weight grad p k)
     else out k)

/-! ## Mixed-precision SGD with momentum

`MP_SGDMomKernel` keeps a float32 master weight `weight32` and a float32
momentum `mom_data`; both are written unconditionally, and only the final
down-cast `KERNEL_ASSIGN(out_data[i], req, w)` honours the write mode.  The
narrowing cast `(DType)w` is modelled as the identity on `ℚ`. -/

/-- The new momentum value computed by `MP_SGDMomKernel::Map(i, ...)` from the
master weight `weight32`. -/
def MP_SGDMomKernelMomNew (mom32 weight32 grad : ℕ → ℚ) (p : SGDMomParam)
    (i : ℕ) : ℚ :=
  if 0 ≤ p.clip_gradient then
    p.momentum * mom32 i - p.lr * p.wd * weight32 i -
      p.lr * clipMap (p.rescale_grad * grad i) p.clip_gradient
  else
    p.momentum * mom32 i - p.lr * p.wd * weight32 i -
      p.lr * p.rescale_grad * grad i

/-- `MP_SGDMomUpdate`: launches `MP_SGDMomKernel` over `n` elements.  Returns
`(mom32, weight32, out)` after the call. -/
def MP_SGDMomUpdate (n : ℕ) (weight grad : ℕ → ℚ) (mom32 weight32 : ℕ → ℚ)
    (p : SGDMomParam) (req : OpReqType) (out : ℕ → ℚ) :
    (ℕ → ℚ) × (ℕ → ℚ) × (ℕ → ℚ) :=
  (fun k => if k < n then MP_SGDMomKernelMomNew mom32 weight32 grad p k else mom32 k,
   fun k => if k < n then
       weight32 k + MP_SGDMomKernelMomNew mom32 weight32 grad p k
     else weight32 k,
   fun k => if k < n then
       kernelAssign (out k) req
         (weight32 k + MP_SGDMomKernelMomNew mom32 weight32 grad p k)
     else out k)

/-! ## Dense Adam -/

/-- `AdamUpdate`: the dense Adam entry point.  The source first overwrites the
gradient tensor in place (`grad = rescale_grad * grad + wd * weight`), then
updates `mean` and `var` in place (unconditionally), then assigns the output
through `Assign(out, req[0], ...)`.  Returns `(grad, mean, var, out)` after
the call.  `sqrtF` models the external `square_root::Map`. -/
def AdamUpdate (sqrtF : ℚ → ℚ) (n : ℕ) (weight grad mean var : ℕ → ℚ)
    (p : AdamParam) (req : OpReqType) (out : ℕ → ℚ) :
    (ℕ → ℚ) × (ℕ → ℚ) × (ℕ → ℚ) × (ℕ → ℚ) :=
  let grad2 : ℕ → ℚ := fun k =>
    if k < n then p.rescale_grad * grad k + p.wd * weight k else grad k
  let mean2 : ℕ → ℚ := fun k =>
    if k < n then
      if 0 ≤ p.clip_gradient then
        p.beta1 * mean k + (1 - p.beta1) * clipMap (grad2 k) p.clip_gradient
      else
        p.beta1 * mean k + (1 - p.beta1) * grad2 k
    else mean k
  let var2 : ℕ → ℚ := fun k =>
    if k < n then
      if 0 ≤ p.clip_gradient then
        p.beta2 * var k + (1 - p.beta2) *
          (clipMap (grad2 k) p.clip_gradient * clipMap (grad2 k) p.clip_gradient)
      else
        p.beta2 * var k + (1 - p.beta2) * (grad2 k * grad2 k)
    else var k
  let out2 : ℕ → ℚ := fun k =>
    if k < n then
      kernelAssign (out k) req
        (weight k - p.lr * mean2 k / (sqrtF (var2 k) + p.epsilon))
    else out k
  (grad2, mean2, var2, out2)

/-! ## Dense RMSProp (Alex Graves variant) -/

/-- `RMSPropAlexUpdate`: overwrites `grad` in place, then updates `state_n`,
`state_g` and `delta` in place (each later tensor reading the already-updated
earlier ones), then assigns the output, clipped to `[-clip_weights,
clip_weights]` iff `clip_weights >= 0`.  Returns
`(grad, state_n, state_g, delta, out)` after the call. -/
def RMSPropAlexUpdate (sqrtF : ℚ → ℚ) (n : ℕ)
    (weight grad state_n state_g delta : ℕ → ℚ) (p : RMSPropAlexParam)
    (req : OpReqType) (out : ℕ → ℚ) :
    (ℕ → ℚ) × (ℕ → ℚ) × (ℕ → ℚ) × (ℕ → ℚ) × (ℕ → ℚ) :=
  let grad2 : ℕ → ℚ := fun k =>
    if k < n then p.rescale_grad * grad k + p.wd * weight k else grad k
  let cg : ℕ → ℚ := fun k => clipMap (grad2 k) p.clip_gradient
  let stateN2 : ℕ → ℚ := fun k =>
    if k < n then
      if 0 ≤ p.clip_gradient then
        (1 - p.gamma1) * (cg k * cg k) + p.gamma1 * state_n k
      else
        (1 - p.gamma1) * (grad2 k * grad2 k) + p.gamma1 * state_n k
    else state_n k
  let stateG2 : ℕ → ℚ := fun k =>
    if k < n then
      if 0 ≤ p.clip_gradient then
        (1 - p.gamma1) * cg k + p.gamma1 * state_g k
      else
        (1 - p.gamma1) * grad2 k + p.gamma1 * state_g k
    else state_g k
  let delta2 : ℕ → ℚ := fun k =>
    if k < n then
      if 0 ≤ p.clip_gradient then
        p.gamma2 * delta k -
          p.lr * (cg k / sqrtF (stateN2 k - stateG2 k * stateG2 k + p.epsilon))
      else
        p.gamma2 * delta k -
          p.lr * (grad2 k / sqrtF (stateN2 k - stateG2 k * stateG2 k + p.epsilon))
    else delta k
  let out2 : ℕ → ℚ := fun k =>
    if k < n then
      if 0 ≤ p.clip_weights then
        kernelAssign (out k) req (clipMap (weight k + delta2 k) p.clip_weights)
      else
        kernelAssign (out k) req (weight k + delta2 k)
    else out k
  (grad2, stateN2, stateG2, delta2, out2)

/-! ## Dense RMSProp (Tieleman & Hinton variant) -/

/-- `RMSPropUpdate`: overwrites `grad` in place, then updates `state_n` in
place, then assigns the output
`weight - lr * g / sqrt(state_n + epsilon)` (with `g` the clipped gradient
when `clip_gradient >= 0`), clipped to `[-clip_weights, clip_weights]` iff
`clip_weights >= 0`.  Returns `(grad, state_n, out)` after the call. -/
def RMSPropUpdate (sqrtF : ℚ → ℚ) (n : ℕ) (weight grad state_n : ℕ → ℚ)
    (p : RMSPropParam) (req : OpReqType) (out : ℕ → ℚ) :
    (ℕ → ℚ) × (ℕ → ℚ) × (ℕ → ℚ) :=
  let grad2 : ℕ → ℚ := fun k =>
    if k < n then p.rescale_grad * grad k + p.wd * weight k else grad k
  let cg : ℕ → ℚ := fun k => clipMap (grad2 k) p.clip_gradient
  let stateN2 : ℕ → ℚ := fun k =>
    if k < n then
      if 0 ≤ p.clip_gradient then
        (1 - p.gamma1) * (cg k * cg k) + p.gamma1 * state_n k
      else
        (1 - p.gamma1) * (grad2 k * grad2 k) + p.gamma1 * state_n k
    else state_n k
  let out2 : ℕ → ℚ := fun k =>
    if k < n then
      if 0 ≤ p.clip_gradient then
        if 0 ≤ p.clip_weights then
          kernelAssign (out k) req
            (clipMap (weight k - p.lr * (cg k / sqrtF (stateN2 k + p.epsilon)))
              p.clip_weights)
        else
          kernelAssign (out k) req
            (weight k - p.lr * (cg k / sqrtF (stateN2 k + p.epsilon)))
      else
        if 0 ≤ p.clip_weights then
          kernelAssign (out k) req
            (clipMap (weight k - p.lr * (grad2 k / sqrtF (stateN2 k + p.epsilon)))
              p.clip_weights)
        else
          kernelAssign (out k) req
            (weight k - p.lr * (grad2 k / sqrtF (stateN2 k + p.epsilon)))
    else out k
  (grad2, stateN2, out2)

/-! ## Sparse row kernels, DnsRsp family (dense weight/state, row-sparse gradient)

`Map(i)` handles the `i`-th listed row of the row-sparse gradient: it loops
`j` over the row length and writes the dense cells
`grad_idx[i] * row_length + j`.  A kernel launch is a fold of the row bodies
over `i ∈ [0, num_rows)`; each row writes only its own cells, so the fold
order is immaterial and matches the parallel launch. -/

/-- The body of the `j` loop of `SGDDnsRspKernel<req>::Map(i, ...)`: one
write to `out[grad_idx[i] * row_length + j]`. -/
def SGDDnsRspStep (req : OpReqType) (row_length : ℕ) (weight : ℕ → ℚ)
    (grad_idx : ℕ → ℕ) (grad_val : ℕ → ℚ) (p : SGDParam) (i : ℕ)
    (acc : ℕ → ℚ) (j : ℕ) : ℕ → ℚ :=
  let data_i := grad_idx i * row_length + j
  let grad_i := i * row_length + j
  let v :=
    if 0 ≤ p.clip_gradient then
      (1 - p.lr * p.wd) * weight data_i -
        p.lr * clipMap (p.rescale_grad * grad_val grad_i) p.clip_gradient
    else
      (1 - p.lr * p.wd) * weight data_i -
        (p.lr * p.rescale_grad) * grad_val grad_i
  writeAt acc data_i (kernelAssign (acc data_i) req v)

/-- `SGDDnsRspKernel<req>::Map(i, ...)`: one row of the sparse-gradient SGD
update, acting on the output buffer. -/
def SGDDnsRspKernelMap (req : OpReqType) (row_length : ℕ) (weight : ℕ → ℚ)
    (grad_idx : ℕ → ℕ) (grad_val : ℕ → ℚ) (p : SGDParam) (i : ℕ)
    (out : ℕ → ℚ) : ℕ → ℚ :=
  (List.range row_length).foldl
    (SGDDnsRspStep req row_length weight grad_idx grad_val p i) out

/-- Launch of `SGDDnsRspKernel` over the `num_rows` listed rows. -/
def SGDDnsRspLaunch (req : OpReqType) (num_rows row_length : ℕ) (weight : ℕ → ℚ)
    (grad_idx : ℕ → ℕ) (grad_val : ℕ → ℚ) (p : SGDParam) (out : ℕ → ℚ) :
    ℕ → ℚ :=
  (List.range num_rows).foldl
    (fun acc i => SGDDnsRspKernelMap req row_length weight grad_idx grad_val p i acc)
    out

/-- The body of the `j` loop of `SGDMomDnsRspDnsKernel<req>::Map(i, ...)`.
The state is `(mom, out)`; `mom_data[data_i]` is written unconditionally,
`out_data[data_i]` through `KERNEL_ASSIGN` and reads the just-updated
momentum. -/
def SGDMomDnsRspDnsStep (req : OpReqType) (row_length : ℕ)
    (weight : ℕ → ℚ) (grad_idx : ℕ → ℕ) (grad_val : ℕ → ℚ) (p : SGDMomParam)
    (i : ℕ) (st : (ℕ → ℚ) × (ℕ → ℚ)) (j : ℕ) : (ℕ → ℚ) × (ℕ → ℚ) :=
  let data_i := grad_idx i * row_length + j
  let grad_i := i * row_length + j
  let rate := p.lr * p.wd
  let m :=
    if 0 ≤ p.clip_gradient then
      p.momentum * st.1 data_i - rate * weight data_i -
        p.lr * clipMap (p.rescale_grad * grad_val grad_i) p.clip_gradient
    else
      p.momentum * st.1 data_i - rate * weight data_i -
        p.lr * p.rescale_grad * grad_val grad_i
  (writeAt st.1 data_i m,
   writeAt st.2 data_i (kernelAssign (st.2 data_i) req (weight data_i + m)))

/-- `SGDMomDnsRspDnsKernel<req>::Map(i, ...)` as the fold of its column loop. -/
def SGDMomDnsRspDnsKernelMap (req : OpReqType) (row_length : ℕ)
    (weight : ℕ → ℚ) (grad_idx : ℕ → ℕ) (grad_val : ℕ → ℚ) (p : SGDMomParam)
    (i : ℕ) (st : (ℕ → ℚ) × (ℕ → ℚ)) : (ℕ → ℚ) × (ℕ → ℚ) :=
  (List.range row_length).foldl
    (SGDMomDnsRspDnsStep req row_length weight grad_idx grad_val p i) st

/-- Launch of `SGDMomDnsRspDnsKernel` over the listed rows. -/
def SGDMomDnsRspDnsLaunch (req : OpReqType) (num_rows row_length : ℕ)
    (weight : ℕ → ℚ) (grad_idx : ℕ → ℕ) (grad_val : ℕ → ℚ) (p : SGDMomParam)
    (mom out : ℕ → ℚ) : (ℕ → ℚ) × (ℕ → ℚ) :=
  (List.range num_rows).foldl
    (fun st i => SGDMomDnsRspDnsKernelMap req row_length weight grad_idx grad_val p i st)
    (mom, out)

/-- The body of the `j` loop of `AdamDnsRspDnsKernel<req>::Map(i, ...)`.
The state is `(mean, var, out)`; `mean_data` and `var_data` are written
unconditionally, `out_data` through `KERNEL_ASSIGN` and reads the
just-updated mean and var. -/
def AdamDnsRspDnsStep (sqrtF : ℚ → ℚ) (req : OpReqType) (row_length : ℕ)
    (weight : ℕ → ℚ) (grad_idx : ℕ → ℕ) (grad_val : ℕ → ℚ) (p : AdamParam)
    (i : ℕ) (st : (ℕ → ℚ) × (ℕ → ℚ) × (ℕ → ℚ)) (j : ℕ) :
    (ℕ → ℚ) × (ℕ → ℚ) × (ℕ → ℚ) :=
  let data_i := grad_idx i * row_length + j
  let grad_i := i * row_length + j
  let grad_rescaled := grad_val grad_i * p.rescale_grad + weight data_i * p.wd
  let m :=
    if 0 ≤ p.clip_gradient then
      p.beta1 * st.1 data_i + (1 - p.beta1) * clipMap grad_rescaled p.clip_gradient
    else
      p.beta1 * st.1 data_i + (1 - p.beta1) * grad_rescaled
  let v :=
    if 0 ≤ p.clip_gradient then
      p.beta2 * st.2.1 data_i + (1 - p.beta2) *
        (clipMap grad_rescaled p.clip_gradient * clipMap grad_rescaled p.clip_gradient)
    else
      p.beta2 * st.2.1 data_i + (1 - p.beta2) * (grad_rescaled * grad_rescaled)
  (writeAt st.1 data_i m,
   writeAt st.2.1 data_i v,
   writeAt st.2.2 data_i
     (kernelAssign (st.2.2 data_i) req
       (weight data_i - p.lr * m / (sqrtF v + p.epsilon))))

/-- `AdamDnsRspDnsKernel<req>::Map(i, ...)` as the fold of its column loop. -/
def AdamDnsRspDnsKernelMap (sqrtF : ℚ → ℚ) (req : OpReqType) (row_length : ℕ)
    (weight : ℕ → ℚ) (grad_idx : ℕ → ℕ) (grad_val : ℕ → ℚ) (p : AdamParam)
    (i : ℕ) (st : (ℕ → ℚ) × (ℕ → ℚ) × (ℕ → ℚ)) :
    (ℕ → ℚ) × (ℕ → ℚ) × (ℕ → ℚ) :=
  (List.range row_length).foldl
    (AdamDnsRspDnsStep sqrtF req row_length weight grad_idx grad_val p i) st

/-- Launch of `AdamDnsRspDnsKernel` over the listed rows. -/
def AdamDnsRspDnsLaunch (sqrtF : ℚ → ℚ) (req : OpReqType)
    (num_rows row_length : ℕ) (weight : ℕ → ℚ) (grad_idx : ℕ → ℕ)
    (grad_val : ℕ → ℚ) (p : AdamParam) (mean var out : ℕ → ℚ) :
    (ℕ → ℚ) × (ℕ → ℚ) × (ℕ → ℚ) :=
  (List.range num_rows).foldl
    (fun st i => AdamDnsRspDnsKernelMap sqrtF req row_length weight grad_idx grad_val p i st)
    (mean, var, out)

/-! ## Sparse row kernels, RspDns family (row-sparse weight, dense gradient)

`Map(i)` handles the `i`-th stored weight row, whose cells sit at
`i * num_cols + j` in the weight value buffer and whose gradient row sits at
the same offsets in the dense gradient.  The row first scans its gradient row
for a non-zero entry and returns untouched if there is none. -/

/-- The body of the `j` loop of `SGDRspDnsKernel<req>::Map(i, ...)`: one
write to `out[i * num_cols + j]`. -/
def SGDRspDnsStep (req : OpReqType) (num_cols : ℕ) (weight grad : ℕ → ℚ)
    (p : SGDParam) (i : ℕ) (acc : ℕ → ℚ) (j : ℕ) : ℕ → ℚ :=
  let index := i * num_cols + j
  let rate := 1 - p.lr * p.wd
  let v :=
    if 0 ≤ p.clip_gradient then
      rate * weight index -
        p.lr * clipMap (p.rescale_grad * grad index) p.clip_gradient
    else
      rate * weight index - p.lr * p.rescale_grad * grad index
  writeAt acc index (kernelAssign (acc index) req v)

/-- `SGDRspDnsKernel<req>::Map(i, ...)`: scan the dense-gradient row for a
non-zero entry; if the row is entirely zero return untouched, otherwise run
the column loop. -/
def SGDRspDnsKernelMap (req : OpReqType) (num_cols : ℕ) (weight grad : ℕ → ℚ)
    (p : SGDParam) (i : ℕ) (out : ℕ → ℚ) : ℕ → ℚ :=
  if ((List.range num_cols).any fun j => decide (grad (i * num_cols + j) ≠ 0)) = false
  then out
  else
    (List.range num_cols).foldl (SGDRspDnsStep req num_cols weight grad p i) out

/-- Launch of `SGDRspDnsKernel` over the stored weight rows. -/
def SGDRspDnsLaunch (req : OpReqType) (num_rows num_cols : ℕ)
    (weight grad : ℕ → ℚ) (p : SGDParam) (out : ℕ → ℚ) : ℕ → ℚ :=
  (List.range num_rows).foldl
    (fun acc i => SGDRspDnsKernelMap req num_cols weight grad p i acc)
    out

/-- The body of the `j` loop of `SGDMomRspDnsKernel<req>::Map(i, ...)`;
state is `(mom, out)`. -/
def SGDMomRspDnsStep (req : OpReqType) (num_cols : ℕ) (weight grad : ℕ → ℚ)
    (p : SGDMomParam) (i : ℕ) (st : (ℕ → ℚ) × (ℕ → ℚ)) (j : ℕ) :
    (ℕ → ℚ) × (ℕ → ℚ) :=
  let index := i * num_cols + j
  let rate := p.lr * p.wd
  let m :=
    if 0 ≤ p.clip_gradient then
      p.momentum * st.1 index - rate * weight index -
        p.lr * clipMap (p.rescale_grad * grad index) p.clip_gradient
    else
      p.momentum * st.1 index - rate * weight index -
        p.lr * p.rescale_grad * grad index
  (writeAt st.1 index m,
   writeAt st.2 index (kernelAssign (st.2 index) req (weight index + m)))

/-- `SGDMomRspDnsKernel<req>::Map(i, ...)`: scan the dense-gradient row for a
non-zero entry; if the row is entirely zero return untouched, otherwise run
the column loop over `(mom, out)`. -/
def SGDMomRspDnsKernelMap (req : OpReqType) (num_cols : ℕ) (weight grad : ℕ → ℚ)
    (p : SGDMomParam) (i : ℕ) (st : (ℕ → ℚ) × (ℕ → ℚ)) : (ℕ → ℚ) × (ℕ → ℚ) :=
  if ((List.range num_cols).any fun j => decide (grad (i * num_cols + j) ≠ 0)) = false
  then st
  else
    (List.range num_cols).foldl (SGDMomRspDnsStep req num_cols weight grad p i) st

/-- Launch of `SGDMomRspDnsKernel` over the stored weight rows. -/
def SGDMomRspDnsLaunch (req : OpReqType) (num_rows num_cols : ℕ)
    (weight grad : ℕ → ℚ) (p : SGDMomParam) (mom out : ℕ → ℚ) :
    (ℕ → ℚ) × (ℕ → ℚ) :=
  (List.range num_rows).foldl
    (fun st i => SGDMomRspDnsKernelMap req num_cols weight grad p i st)
    (mom, out)

/-! ## Storage-combination drivers (DnsRsp family)

A driver either completes, returning the buffers after the call, or hits a
fatal `CHECK` (`LOG(FATAL)`): `DriverResult.fatal` carries only the message,
so a failed call produces no partial output. -/

/-- A row-sparse gradient: the `aux_data(kIdx)` row index array (with
`aux_shape(kIdx)[0] = numRows` stored rows) and the packed value buffer.
`storage_initialized()` is `numRows > 0`. -/
structure RspGrad where
  numRows : ℕ
  idx : ℕ → ℕ
  val : ℕ → ℚ

/-- `NDArray::storage_initialized()` for a row-sparse array: it has at least
one stored row. -/
def RspGrad.storage_initialized (g : RspGrad) : Prop := 0 < g.numRows

instance (g : RspGrad) : Decidable g.storage_initialized :=
  inferInstanceAs (Decidable (0 < g.numRows))

/-- Outcome of a driver call: either the state after the call, or a fatal
check failure carrying only its message. -/
inductive DriverResult (σ : Type) where
  | ok (s : σ)
  | fatal (msg : String)
deriving DecidableEq

/-- `SGDUpdateDnsRspImpl`: dense weight, row-sparse gradient.  The weight
shape is `wRows × row_length` (so `weight.shape_.Size() = wRows * row_length`).
Checks, in source order: uninitialized gradient or `kNullOp` returns with no
effect; then `req` must be `kWriteInplace`; then the weight must be non-empty;
then the kernel is launched.  Result state: the output buffer. -/
def SGDUpdateDnsRspImpl (p : SGDParam) (wRows row_length : ℕ) (weight : ℕ → ℚ)
    (grad : RspGrad) (req : OpReqType) (out : ℕ → ℚ) : DriverResult (ℕ → ℚ) :=
  if ¬ grad.storage_initialized ∨ req = .kNullOp then .ok out
  else if req ≠ .kWriteInplace then
    .fatal "kWriteInplace is expected for sparse sgd_mom_update"
  else if ¬ 0 < wRows * row_length then .fatal "weight.shape_.Size() must be positive"
  else .ok (SGDDnsRspLaunch req grad.numRows row_length weight grad.idx grad.val p out)

/-- `SGDMomUpdateDnsRspDnsImpl`: dense weight and momentum, row-sparse
gradient.  Same check sequence as the SGD driver, plus a non-empty momentum.
Result state: `(mom, out)` after the call. -/
def SGDMomUpdateDnsRspDnsImpl (p : SGDMomParam) (wRows row_length : ℕ)
    (weight : ℕ → ℚ) (grad : RspGrad) (mom : ℕ → ℚ) (momSize : ℕ)
    (req : OpReqType) (out : ℕ → ℚ) : DriverResult ((ℕ → ℚ) × (ℕ → ℚ)) :=
  if ¬ grad.storage_initialized ∨ req = .kNullOp then .ok (mom, out)
  else if req ≠ .kWriteInplace then
    .fatal "kWriteInplace is expected for sparse sgd_mom_update"
  else if ¬ 0 < wRows * row_length then .fatal "weight.shape_.Size() must be positive"
  else if ¬ 0 < momSize then .fatal "mom.shape_.Size() must be positive"
  else .ok (SGDMomDnsRspDnsLaunch req grad.numRows row_length weight grad.idx grad.val p mom out)

/-- `AdamUpdateDnsRspDnsImpl`: dense weight, mean and var, row-sparse
gradient.  Same check sequence, plus non-empty mean and var.  Result state:
`(mean, var, out)` after the call. -/
def AdamUpdateDnsRspDnsImpl (sqrtF : ℚ → ℚ) (p : AdamParam)
    (wRows row_length : ℕ) (weight : ℕ → ℚ) (grad : RspGrad)
    (mean var : ℕ → ℚ) (meanSize varSize : ℕ) (req : OpReqType)
    (out : ℕ → ℚ) : DriverResult ((ℕ → ℚ) × (ℕ → ℚ) × (ℕ → ℚ)) :=
  if ¬ grad.storage_initialized ∨ req = .kNullOp then .ok (mean, var, out)
  else if req ≠ .kWriteInplace then
    .fatal "kWriteInplace is expected for sparse adam_update"
  else if ¬ 0 < wRows * row_length then .fatal "weight.shape_.Size() must be positive"
  else if ¬ 0 < meanSize then .fatal "mean.shape_.Size() must be positive"
  else if ¬ 0 < varSize then .fatal "var.shape_.Size() must be positive"
  else .ok (AdamDnsRspDnsLaunch sqrtF req grad.numRows row_length weight grad.idx grad.val p mean var out)

/-! ## Dispatch entry points -/

/-- `NDArrayStorageType` as far as this core inspects it. -/
inductive StorageType where
  | kDefaultStorage
  | kRowSparseStorage
deriving DecidableEq, Repr

/-- Where a dispatch entry point routes a call: to one of its sparse
implementations, to the external densify-and-fallback collaborator
(`FCompExFallback`), or to a fatal error (an inconsistent-storage `CHECK_EQ`
or the unsupported-storage `LOG(FATAL)`). -/
inductive Dispatch where
  | sparseImpl
  | fallback
  | fatalInconsistent
  | fatalUnsupported
deriving DecidableEq, Repr

/-- `SGDUpdateEx` routing on `(weight.stype, grad.stype)`: both row-sparse or
row-sparse weight with dense gradient go to the sparse impls, anything else
goes to `FCompExFallback(..., SGDUpdate, ...)`. -/
def SGDUpdateExDispatch (weight_stype grad_stype : StorageType) : Dispatch :=
  if weight_stype = .kRowSparseStorage ∧ grad_stype = .kRowSparseStorage then
    .sparseImpl
  else if weight_stype = .kRowSparseStorage ∧ grad_stype = .kDefaultStorage then
    .sparseImpl
  else .fallback

/-- `SGDMomUpdateEx` routing on `(weight.stype, grad.stype, mom.stype)`: the
`CHECK_EQ(weight_stype, mom_stype)` consistency check runs first and is
fatal; then the two sparse combinations; anything else goes to
`FCompExFallback(..., SGDMomUpdate, ...)`. -/
def SGDMomUpdateExDispatch (weight_stype grad_stype mom_stype : StorageType) :
    Dispatch :=
  if weight_stype ≠ mom_stype then .fatalInconsistent
  else if weight_stype = .kRowSparseStorage ∧ grad_stype = .kRowSparseStorage ∧
      mom_stype = .kRowSparseStorage then .sparseImpl
  else if weight_stype = .kRowSparseStorage ∧ grad_stype = .kDefaultStorage ∧
      mom_stype = .kRowSparseStorage then .sparseImpl
  else .fallback

/-- `AdamUpdateEx` routing on
`(weight.stype, grad.stype, mean.stype, var.stype, out.stype)`: the
`CHECK_EQ(mean_stype, weight_stype)` and `CHECK_EQ(var_stype, weight_stype)`
consistency checks run first and are fatal; then the all-row-sparse
combination goes to the sparse impl; anything else hits
`LOG(FATAL) << "Unexpected storage types..."`. -/
def AdamUpdateExDispatch
    (weight_stype grad_stype mean_stype var_stype out_stype : StorageType) :
    Dispatch :=
  if mean_stype ≠ weight_stype then .fatalInconsistent
  else if var_stype ≠ weight_stype then .fatalInconsistent
  else if weight_stype = .kRowSparseStorage ∧ mean_stype = .kRowSparseStorage ∧
      var_stype = .kRowSparseStorage ∧ grad_stype = .kRowSparseStorage ∧
      out_stype = .kRowSparseStorage then .sparseImpl
  else .fatalUnsupported

/-- The storage combinations `AdamUpdateEx` supports: weight, gradient, mean,
var and output all row-sparse. -/
def AdamSupported
    (weight_stype grad_stype mean_stype var_stype out_stype : StorageType) :
    Prop :=
  weight_stype = .kRowSparseStorage ∧ grad_stype = .kRowSparseStorage ∧
    mean_stype = .kRowSparseStorage ∧ var_stype = .kRowSparseStorage ∧
    out_stype = .kRowSparseStorage

instance (a b c d e : StorageType) : Decidable (AdamSupported a b c d e) :=
  inferInstanceAs (Decidable (_ ∧ _ ∧ _ ∧ _ ∧ _))

/-- The storage combinations `SGDMomUpdateEx` routes to a sparse impl:
row-sparse weight and momentum, and either row-sparse or dense gradient. -/
def SGDMomSupported (weight_stype grad_stype mom_stype : StorageType) : Prop :=
  weight_stype = .kRowSparseStorage ∧ mom_stype = .kRowSparseStorage ∧
    (grad_stype = .kRowSparseStorage ∨ grad_stype = .kDefaultStorage)

instance (a b c : StorageType) : Decidable (SGDMomSupported a b c) :=
  inferInstanceAs (Decidable (_ ∧ _ ∧ _))

/-- The storage combinations `SGDUpdateEx` routes to a sparse impl:
row-sparse weight, and either row-sparse or dense gradient. -/
def SGDSupported (weight_stype grad_stype : StorageType) : Prop :=
  weight_stype = .kRowSparseStorage ∧
    (grad_stype = .kRowSparseStorage ∨ grad_stype = .kDefaultStorage)

instance (a b : StorageType) : Decidable (SGDSupported a b) :=
  inferInstanceAs (Decidable (_ ∧ _))

/-! ## General helpers for the row folds -/

theorem foldlInvariant {σ α : Type} (P : σ → Prop) (f : σ → α → σ) :
    ∀ (l : List α) (s : σ), P s → (∀ t a, a ∈ l → P t → P (f t a)) →
      P (l.foldl f s)
  | [], _, hs, _ => hs
  | a :: l, s, hs, hstep =>
    foldlInvariant P f l (f s a)
      (hstep s a (List.mem_cons_self a l) hs)
      (fun t b hb ht => hstep t b (List.mem_cons_of_mem a hb) ht)

theorem writeAt_same (f : ℕ → ℚ) (k : ℕ) (v : ℚ) : writeAt f k v k = v := by
  simp [writeAt]

theorem writeAt_ne (f : ℕ → ℚ) (k m : ℕ) (v : ℚ) (h : m ≠ k) :
    writeAt f k v m = f m := by
  simp [writeAt, h]

/-- Cells of distinct row blocks are distinct: with column indices below the
row length `R`, `r * R + j0 = q * R + j` forces `r = q`. -/
theorem block_cells_disjoint {R r q j0 j : ℕ} (hj0 : j0 < R) (hj : j < R)
    (hrq : r ≠ q) : r * R + j0 ≠ q * R + j := by
  intro h
  apply hrq
  have hR : 0 < R := lt_of_le_of_lt (Nat.zero_le j0) hj0
  have h1 : (r * R + j0) / R = r := by
    rw [mul_comm, Nat.mul_add_div hR, Nat.div_eq_of_lt hj0, Nat.add_zero]
  have h2 : (q * R + j) / R = q := by
    rw [mul_comm, Nat.mul_add_div hR, Nat.div_eq_of_lt hj, Nat.add_zero]
  rw [← h1, ← h2, h]

/-! ## Frame lemmas for the sparse row kernels -/

theorem SGDDnsRspStep_frame (req : OpReqType) (R : ℕ) (weight : ℕ → ℚ)
    (gi : ℕ → ℕ) (gv : ℕ → ℚ) (p : SGDParam) (i : ℕ) (acc : ℕ → ℚ) (j k : ℕ)
    (hk : k ≠ gi i * R + j) :
    SGDDnsRspStep req R weight gi gv p i acc j k = acc k := by
  simp only [SGDDnsRspStep]
  exact writeAt_ne _ _ _ _ hk

theorem SGDDnsRspFold_frame (req : OpReqType) (R : ℕ) (weight : ℕ → ℚ)
    (gi : ℕ → ℕ) (gv : ℕ → ℚ) (p : SGDParam) (i : ℕ) (js : List ℕ)
    (acc : ℕ → ℚ) (k : ℕ) (hk : ∀ j ∈ js, k ≠ gi i * R + j) :
    js.foldl (SGDDnsRspStep req R weight gi gv p i) acc k = acc k := by
  refine foldlInvariant (fun t => t k = acc k) _ js acc rfl ?_
  intro t j hj ht
  rw [SGDDnsRspStep_frame req R weight gi gv p i t j k (hk j hj), ht]

theorem SGDDnsRspKernelMap_frame (req : OpReqType) (R : ℕ) (weight : ℕ → ℚ)
    (gi : ℕ → ℕ) (gv : ℕ → ℚ) (p : SGDParam) (i : ℕ) (out : ℕ → ℚ) (k : ℕ)
    (hk : ∀ j < R, k ≠ gi i * R + j) :
    SGDDnsRspKernelMap req R weight gi gv p i out k = out k := by
  refine SGDDnsRspFold_frame req R weight gi gv p i _ out k ?_
  intro j hj
  exact hk j (List.mem_range.mp hj)

theorem SGDDnsRspLaunch_frame (req : OpReqType) (N R : ℕ) (weight : ℕ → ℚ)
    (gi : ℕ → ℕ) (gv : ℕ → ℚ) (p : SGDParam) (out : ℕ → ℚ) (k : ℕ)
    (hk : ∀ i < N, ∀ j < R, k ≠ gi i * R + j) :
    SGDDnsRspLaunch req N R weight gi gv p out k = out k := by
  refine foldlInvariant (fun t => t k = out k) _ _ out rfl ?_
  intro t i hi ht
  rw [SGDDnsRspKernelMap_frame req R weight gi gv p i t k
      (hk i (List.mem_range.mp hi)), ht]

theorem SGDMomDnsRspDnsStep_frame (req : OpReqType) (R : ℕ) (weight : ℕ → ℚ)
    (gi : ℕ → ℕ) (gv : ℕ → ℚ) (p : SGDMomParam) (i : ℕ)
    (st : (ℕ → ℚ) × (ℕ → ℚ)) (j k : ℕ) (hk : k ≠ gi i * R + j) :
    (SGDMomDnsRspDnsStep req R weight gi gv p i st j).1 k = st.1 k ∧
    (SGDMomDnsRspDnsStep req R weight gi gv p i st j).2 k = st.2 k := by
  simp only [SGDMomDnsRspDnsStep]
  exact ⟨writeAt_ne _ _ _ _ hk, writeAt_ne _ _ _ _ hk⟩

theorem SGDMomDnsRspDnsFold_frame (req : OpReqType) (R : ℕ) (weight : ℕ → ℚ)
    (gi : ℕ → ℕ) (gv : ℕ → ℚ) (p : SGDMomParam) (i : ℕ) (js : List ℕ)
    (st : (ℕ → ℚ) × (ℕ → ℚ)) (k : ℕ) (hk : ∀ j ∈ js, k ≠ gi i * R + j) :
    (js.foldl (SGDMomDnsRspDnsStep req R weight gi gv p i) st).1 k = st.1 k ∧
    (js.foldl (SGDMomDnsRspDnsStep req R weight gi gv p i) st).2 k = st.2 k := by
  refine foldlInvariant (fun t => t.1 k = st.1 k ∧ t.2 k = st.2 k) _ js st
    ⟨rfl, rfl⟩ ?_
  intro t j hj ht
  have h := SGDMomDnsRspDnsStep_frame req R weight gi gv p i t j k (hk j hj)
  exact ⟨h.1.trans ht.1, h.2.trans ht.2⟩

theorem SGDMomDnsRspDnsKernelMap_frame (req : OpReqType) (R : ℕ)
    (weight : ℕ → ℚ) (gi : ℕ → ℕ) (gv : ℕ → ℚ) (p : SGDMomParam) (i : ℕ)
    (st : (ℕ → ℚ) × (ℕ → ℚ)) (k : ℕ) (hk : ∀ j < R, k ≠ gi i * R + j) :
    (SGDMomDnsRspDnsKernelMap req R weight gi gv p i st).1 k = st.1 k ∧
    (SGDMomDnsRspDnsKernelMap req R weight gi gv p i st).2 k = st.2 k := by
  refine SGDMomDnsRspDnsFold_frame req R weight gi gv p i _ st k ?_
  intro j hj
  exact hk j (List.mem_range.mp hj)

theorem SGDMomDnsRspDnsLaunch_frame (req : OpReqType) (N R : ℕ)
    (weight : ℕ → ℚ) (gi : ℕ → ℕ) (gv : ℕ → ℚ) (p : SGDMomParam)
    (mom out : ℕ → ℚ) (k : ℕ) (hk : ∀ i < N, ∀ j < R, k ≠ gi i * R + j) :
    (SGDMomDnsRspDnsLaunch req N R weight gi gv p mom out).1 k = mom k ∧
    (SGDMomDnsRspDnsLaunch req N R weight gi gv p mom out).2 k = out k := by
  refine foldlInvariant (fun t => t.1 k = mom k ∧ t.2 k = out k) _ _ (mom, out)
    ⟨rfl, rfl⟩ ?_
  intro t i hi ht
  have h := SGDMomDnsRspDnsKernelMap_frame req R weight gi gv p i t k
    (hk i (List.mem_range.mp hi))
  exact ⟨h.1.trans ht.1, h.2.trans ht.2⟩

theorem AdamDnsRspDnsStep_frame (sqrtF : ℚ → ℚ) (req : OpReqType) (R : ℕ)
    (weight : ℕ → ℚ) (gi : ℕ → ℕ) (gv : ℕ → ℚ) (p : AdamParam) (i : ℕ)
    (st : (ℕ → ℚ) × (ℕ → ℚ) × (ℕ → ℚ)) (j k : ℕ) (hk : k ≠ gi i * R + j) :
    (AdamDnsRspDnsStep sqrtF req R weight gi gv p i st j).1 k = st.1 k ∧
    (AdamDnsRspDnsStep sqrtF req R weight gi gv p i st j).2.1 k = st.2.1 k ∧
    (AdamDnsRspDnsStep sqrtF req R weight gi gv p i st j).2.2 k = st.2.2 k := by
  simp only [AdamDnsRspDnsStep]
  exact ⟨writeAt_ne _ _ _ _ hk, writeAt_ne _ _ _ _ hk, writeAt_ne _ _ _ _ hk⟩

theorem AdamDnsRspDnsFold_frame (sqrtF : ℚ → ℚ) (req : OpReqType) (R : ℕ)
    (weight : ℕ → ℚ) (gi : ℕ → ℕ) (gv : ℕ → ℚ) (p : AdamParam) (i : ℕ)
    (js : List ℕ) (st : (ℕ → ℚ) × (ℕ → ℚ) × (ℕ → ℚ)) (k : ℕ)
    (hk : ∀ j ∈ js, k ≠ gi i * R + j) :
    (js.foldl (AdamDnsRspDnsStep sqrtF req R weight gi gv p i) st).1 k = st.1 k ∧
    (js.foldl (AdamDnsRspDnsStep sqrtF req R weight gi gv p i) st).2.1 k = st.2.1 k ∧
    (js.foldl (AdamDnsRspDnsStep sqrtF req R weight gi gv p i) st).2.2 k = st.2.2 k := by
  refine foldlInvariant
    (fun t => t.1 k = st.1 k ∧ t.2.1 k = st.2.1 k ∧ t.2.2 k = st.2.2 k) _ js st
    ⟨rfl, rfl, rfl⟩ ?_
  intro t j hj ht
  have h := AdamDnsRspDnsStep_frame sqrtF req R weight gi gv p i t j k (hk j hj)
  exact ⟨h.1.trans ht.1, h.2.1.trans ht.2.1, h.2.2.trans ht.2.2⟩

theorem AdamDnsRspDnsKernelMap_frame (sqrtF : ℚ → ℚ) (req : OpReqType) (R : ℕ)
    (weight : ℕ → ℚ) (gi : ℕ → ℕ) (gv : ℕ → ℚ) (p : AdamParam) (i : ℕ)
    (st : (ℕ → ℚ) × (ℕ → ℚ) × (ℕ → ℚ)) (k : ℕ) (hk : ∀ j < R, k ≠ gi i * R + j) :
    (AdamDnsRspDnsKernelMap sqrtF req R weight gi gv p i st).1 k = st.1 k ∧
    (AdamDnsRspDnsKernelMap sqrtF req R weight gi gv p i st).2.1 k = st.2.1 k ∧
    (AdamDnsRspDnsKernelMap sqrtF req R weight gi gv p i st).2.2 k = st.2.2 k := by
  refine AdamDnsRspDnsFold_frame sqrtF req R weight gi gv p i _ st k ?_
  intro j hj
  exact hk j (List.mem_range.mp hj)

theorem AdamDnsRspDnsLaunch_frame (sqrtF : ℚ → ℚ) (req : OpReqType) (N R : ℕ)
    (weight : ℕ → ℚ) (gi : ℕ → ℕ) (gv : ℕ → ℚ) (p : AdamParam)
    (mean var out : ℕ → ℚ) (k : ℕ) (hk : ∀ i < N, ∀ j < R, k ≠ gi i * R + j) :
    (AdamDnsRspDnsLaunch sqrtF req N R weight gi gv p mean var out).1 k = mean k ∧
    (AdamDnsRspDnsLaunch sqrtF req N R weight gi gv p mean var out).2.1 k = var k ∧
    (AdamDnsRspDnsLaunch sqrtF req N R weight gi gv p mean var out).2.2 k = out k := by
  refine foldlInvariant
    (fun t => t.1 k = mean k ∧ t.2.1 k = var k ∧ t.2.2 k = out k) _ _
    (mean, var, out) ⟨rfl, rfl, rfl⟩ ?_
  intro t i hi ht
  have h := AdamDnsRspDnsKernelMap_frame sqrtF req R weight gi gv p i t k
    (hk i (List.mem_range.mp hi))
  exact ⟨h.1.trans ht.1, h.2.1.trans ht.2.1, h.2.2.trans ht.2.2⟩

theorem SGDRspDnsKernelMap_frame (req : OpReqType) (C : ℕ) (weight grad : ℕ → ℚ)
    (p : SGDParam) (i : ℕ) (out : ℕ → ℚ) (k : ℕ)
    (hk : ∀ j < C, k ≠ i * C + j) :
    SGDRspDnsKernelMap req C weight grad p i out k = out k := by
  unfold SGDRspDnsKernelMap
  by_cases h : ((List.range C).any fun j => decide (grad (i * C + j) ≠ 0)) = false
  · rw [if_pos h]
  · rw [if_neg h]
    refine foldlInvariant (fun t => t k = out k) _ _ out rfl ?_
    intro t j hj ht
    have hne : k ≠ i * C + j := hk j (List.mem_range.mp hj)
    simp only [SGDRspDnsStep]
    rw [writeAt_ne _ _ _ _ hne, ht]

/-- A stored weight row whose dense-gradient row is entirely zero is skipped
by `SGDRspDnsKernel`. -/
theorem SGDRspDnsKernelMap_zero_row (req : OpReqType) (C : ℕ)
    (weight grad : ℕ → ℚ) (p : SGDParam) (i : ℕ) (out : ℕ → ℚ)
    (h0 : ∀ j < C, grad (i * C + j) = 0) :
    SGDRspDnsKernelMap req C weight grad p i out = out := by
  unfold SGDRspDnsKernelMap
  have h : ((List.range C).any fun j => decide (grad (i * C + j) ≠ 0)) = false := by
    rw [List.any_eq_false]
    intro j hj
    simp [h0 j (List.mem_range.mp hj)]
  rw [if_pos h]

theorem SGDMomRspDnsKernelMap_frame (req : OpReqType) (C : ℕ)
    (weight grad : ℕ → ℚ) (p : SGDMomParam) (i : ℕ)
    (st : (ℕ → ℚ) × (ℕ → ℚ)) (k : ℕ) (hk : ∀ j < C, k ≠ i * C + j) :
    (SGDMomRspDnsKernelMap req C weight grad p i st).1 k = st.1 k ∧
    (SGDMomRspDnsKernelMap req C weight grad p i st).2 k = st.2 k := by
  unfold SGDMomRspDnsKernelMap
  by_cases h : ((List.range C).any fun j => decide (grad (i * C + j) ≠ 0)) = false
  · rw [if_pos h]
    exact ⟨rfl, rfl⟩
  · rw [if_neg h]
    refine foldlInvariant (fun t => t.1 k = st.1 k ∧ t.2 k = st.2 k) _ _ st
      ⟨rfl, rfl⟩ ?_
    intro t j hj ht
    have hne : k ≠ i * C + j := hk j (List.mem_range.mp hj)
    simp only [SGDMomRspDnsStep]
    constructor
    · rw [writeAt_ne _ _ _ _ hne, ht.1]
    · rw [writeAt_ne _ _ _ _ hne, ht.2]

/-- A stored weight row whose dense-gradient row is entirely zero is skipped
by `SGDMomRspDnsKernel` (neither momentum nor output row is touched). -/
theorem SGDMomRspDnsKernelMap_zero_row (req : OpReqType) (C : ℕ)
    (weight grad : ℕ → ℚ) (p : SGDMomParam) (i : ℕ)
    (st : (ℕ → ℚ) × (ℕ → ℚ)) (h0 : ∀ j < C, grad (i * C + j) = 0) :
    SGDMomRspDnsKernelMap req C weight grad p i st = st := by
  unfold SGDMomRspDnsKernelMap
  have h : ((List.range C).any fun j => decide (grad (i * C + j) ≠ 0)) = false := by
    rw [List.any_eq_false]
    intro j hj
    simp [h0 j (List.mem_range.mp hj)]
  rw [if_pos h]

/-- Over the whole `SGDRspDnsKernel` launch, the output cells of a stored row
whose gradient row is entirely zero keep their original values. -/
theorem SGDRspDnsLaunch_zero_row (req : OpReqType) (N C : ℕ)
    (weight grad : ℕ → ℚ) (p : SGDParam) (out : ℕ → ℚ) (r j0 : ℕ)
    (hj0 : j0 < C) (h0 : ∀ j < C, grad (r * C + j) = 0) :
    SGDRspDnsLaunch req N C weight grad p out (r * C + j0) = out (r * C + j0) := by
  refine foldlInvariant (fun t => t (r * C + j0) = out (r * C + j0)) _ _ out rfl ?_
  intro t i _ ht
  by_cases hir : i = r
  · subst hir
    rw [SGDRspDnsKernelMap_zero_row req C weight grad p i t h0, ht]
  · have hk : ∀ j < C, r * C + j0 ≠ i * C + j := fun j hj =>
      block_cells_disjoint hj0 hj (fun h => hir h.symm)
    rw [SGDRspDnsKernelMap_frame req C weight grad p i t _ hk, ht]

/-- Over the whole `SGDMomRspDnsKernel` launch, the momentum and output cells
of a stored row whose gradient row is entirely zero keep their original
values. -/
theorem SGDMomRspDnsLaunch_zero_row (req : OpReqType) (N C : ℕ)
    (weight grad : ℕ → ℚ) (p : SGDMomParam) (mom out : ℕ → ℚ) (r j0 : ℕ)
    (hj0 : j0 < C) (h0 : ∀ j < C, grad (r * C + j) = 0) :
    (SGDMomRspDnsLaunch req N C weight grad p mom out).1 (r * C + j0) = mom (r * C + j0) ∧
    (SGDMomRspDnsLaunch req N C weight grad p mom out).2 (r * C + j0) = out (r * C + j0) := by
  refine foldlInvariant
    (fun t => t.1 (r * C + j0) = mom (r * C + j0) ∧ t.2 (r * C + j0) = out (r * C + j0))
    _ _ (mom, out) ⟨rfl, rfl⟩ ?_
  intro t i _ ht
  by_cases hir : i = r
  · subst hir
    rw [SGDMomRspDnsKernelMap_zero_row req C weight grad p i t h0]
    exact ht
  · have hk : ∀ j < C, r * C + j0 ≠ i * C + j := fun j hj =>
      block_cells_disjoint hj0 hj (fun h => hir h.symm)
    have h := SGDMomRspDnsKernelMap_frame req C weight grad p i t _ hk
    exact ⟨h.1.trans ht.1, h.2.trans ht.2⟩

/-! ## Value lemmas for the sparse row kernels -/

/-- The momentum value `SGDMomDnsRspDnsKernel` stores at cell
`grad_idx[i] * R + j`, as a function of the momentum previously there. -/
def sgdMomSparseNewMom (R : ℕ) (weight : ℕ → ℚ) (gi : ℕ → ℕ) (gv : ℕ → ℚ)
    (p : SGDMomParam) (i j : ℕ) (momv : ℚ) : ℚ :=
  if 0 ≤ p.clip_gradient then
    p.momentum * momv - p.lr * p.wd * weight (gi i * R + j) -
      p.lr * clipMap (p.rescale_grad * gv (i * R + j)) p.clip_gradient
  else
    p.momentum * momv - p.lr * p.wd * weight (gi i * R + j) -
      p.lr * p.rescale_grad * gv (i * R + j)

theorem SGDMomDnsRspDnsStep_same (req : OpReqType) (R : ℕ) (weight : ℕ → ℚ)
    (gi : ℕ → ℕ) (gv : ℕ → ℚ) (p : SGDMomParam) (i : ℕ)
    (st : (ℕ → ℚ) × (ℕ → ℚ)) (j : ℕ) :
    (SGDMomDnsRspDnsStep req R weight gi gv p i st j).1 (gi i * R + j) =
      sgdMomSparseNewMom R weight gi gv p i j (st.1 (gi i * R + j)) ∧
    (SGDMomDnsRspDnsStep req R weight gi gv p i st j).2 (gi i * R + j) =
      kernelAssign (st.2 (gi i * R + j)) req
        (weight (gi i * R + j) +
          sgdMomSparseNewMom R weight gi gv p i j (st.1 (gi i * R + j))) := by
  simp only [SGDMomDnsRspDnsStep, sgdMomSparseNewMom]
  constructor
  · rw [writeAt_same]
  · rw [writeAt_same]

theorem SGDMomDnsRspDnsFold_val (req : OpReqType) (R : ℕ) (weight : ℕ → ℚ)
    (gi : ℕ → ℕ) (gv : ℕ → ℚ) (p : SGDMomParam) (i : ℕ) :
    ∀ (js : List ℕ), js.Nodup → ∀ (st : (ℕ → ℚ) × (ℕ → ℚ)), ∀ j ∈ js,
      (js.foldl (SGDMomDnsRspDnsStep req R weight gi gv p i) st).1 (gi i * R + j) =
        sgdMomSparseNewMom R weight gi gv p i j (st.1 (gi i * R + j)) ∧
      (js.foldl (SGDMomDnsRspDnsStep req R weight gi gv p i) st).2 (gi i * R + j) =
        kernelAssign (st.2 (gi i * R + j)) req
          (weight (gi i * R + j) +
            sgdMomSparseNewMom R weight gi gv p i j (st.1 (gi i * R + j))) := by
  intro js
  induction js with
  | nil => intro _ st j hj; exact absurd hj (List.not_mem_nil j)
  | cons a rest ih =>
    intro hnd st j hj
    have ha : a ∉ rest := (List.nodup_cons.mp hnd).1
    have hnd' : rest.Nodup := (List.nodup_cons.mp hnd).2
    rw [List.foldl_cons]
    rcases List.mem_cons.mp hj with hja | hjr
    · subst hja
      have hk : ∀ j' ∈ rest, gi i * R + j ≠ gi i * R + j' := by
        intro j' hj' h
        exact ha (by rwa [Nat.add_left_cancel h])
      have hfr := SGDMomDnsRspDnsFold_frame req R weight gi gv p i rest
        (SGDMomDnsRspDnsStep req R weight gi gv p i st j) (gi i * R + j) hk
      have hsame := SGDMomDnsRspDnsStep_same req R weight gi gv p i st j
      exact ⟨hfr.1.trans hsame.1, hfr.2.trans hsame.2⟩
    · have hne : j ≠ a := fun h => ha (h ▸ hjr)
      have hcell : gi i * R + j ≠ gi i * R + a := by
        intro h
        exact hne (Nat.add_left_cancel h)
      have hstep := SGDMomDnsRspDnsStep_frame req R weight gi gv p i st a
        (gi i * R + j) hcell
      have hih := ih hnd' (SGDMomDnsRspDnsStep req R weight gi gv p i st a) j hjr
      rw [hih.1, hih.2, hstep.1, hstep.2]
      exact ⟨rfl, rfl⟩

/-- Value of one listed row of `SGDMomDnsRspDnsKernel` at each of its cells:
the momentum cell gets `momentum * mom - lr*wd * weight - lr *
effective_gradient`, the output cell gets `weight + (new momentum)` through
`KERNEL_ASSIGN`. -/
theorem SGDMomDnsRspDnsKernelMap_val (req : OpReqType) (R : ℕ)
    (weight : ℕ → ℚ) (gi : ℕ → ℕ) (gv : ℕ → ℚ) (p : SGDMomParam) (i : ℕ)
    (st : (ℕ → ℚ) × (ℕ → ℚ)) (j : ℕ) (hj : j < R) :
    (SGDMomDnsRspDnsKernelMap req R weight gi gv p i st).1 (gi i * R + j) =
      sgdMomSparseNewMom R weight gi gv p i j (st.1 (gi i * R + j)) ∧
    (SGDMomDnsRspDnsKernelMap req R weight gi gv p i st).2 (gi i * R + j) =
      kernelAssign (st.2 (gi i * R + j)) req
        (weight (gi i * R + j) +
          sgdMomSparseNewMom R weight gi gv p i j (st.1 (gi i * R + j))) :=
  SGDMomDnsRspDnsFold_val req R weight gi gv p i (List.range R)
    (List.nodup_range R) st j (List.mem_range.mpr hj)

/-- The rescaled gradient `AdamDnsRspDnsKernel` computes for column `j` of
listed row `i`: `grad * rescale_grad + weight * wd`. -/
def adamSparseGradRescaled (R : ℕ) (weight : ℕ → ℚ) (gi : ℕ → ℕ) (gv : ℕ → ℚ)
    (p : AdamParam) (i j : ℕ) : ℚ :=
  gv (i * R + j) * p.rescale_grad + weight (gi i * R + j) * p.wd

/-- The mean value `AdamDnsRspDnsKernel` stores at cell `grad_idx[i] * R + j`,
as a function of the mean previously there. -/
def adamSparseNewMean (R : ℕ) (weight : ℕ → ℚ) (gi : ℕ → ℕ) (gv : ℕ → ℚ)
    (p : AdamParam) (i j : ℕ) (meanv : ℚ) : ℚ :=
  if 0 ≤ p.clip_gradient then
    p.beta1 * meanv + (1 - p.beta1) *
      clipMap (adamSparseGradRescaled R weight gi gv p i j) p.clip_gradient
  else
    p.beta1 * meanv + (1 - p.beta1) * adamSparseGradRescaled R weight gi gv p i j

/-- The var value `AdamDnsRspDnsKernel` stores at cell `grad_idx[i] * R + j`,
as a function of the var previously there. -/
def adamSparseNewVar (R : ℕ) (weight : ℕ → ℚ) (gi : ℕ → ℕ) (gv : ℕ → ℚ)
    (p : AdamParam) (i j : ℕ) (varv : ℚ) : ℚ :=
  if 0 ≤ p.clip_gradient then
    p.beta2 * varv + (1 - p.beta2) *
      (clipMap (adamSparseGradRescaled R weight gi gv p i j) p.clip_gradient *
        clipMap (adamSparseGradRescaled R weight gi gv p i j) p.clip_gradient)
  else
    p.beta2 * varv + (1 - p.beta2) *
      (adamSparseGradRescaled R weight gi gv p i j *
        adamSparseGradRescaled R weight gi gv p i j)

theorem AdamDnsRspDnsStep_same (sqrtF : ℚ → ℚ) (req : OpReqType) (R : ℕ)
    (weight : ℕ → ℚ) (gi : ℕ → ℕ) (gv : ℕ → ℚ) (p : AdamParam) (i : ℕ)
    (st : (ℕ → ℚ) × (ℕ → ℚ) × (ℕ → ℚ)) (j : ℕ) :
    (AdamDnsRspDnsStep sqrtF req R weight gi gv p i st j).1 (gi i * R + j) =
      adamSparseNewMean R weight gi gv p i j (st.1 (gi i * R + j)) ∧
    (AdamDnsRspDnsStep sqrtF req R weight gi gv p i st j).2.1 (gi i * R + j) =
      adamSparseNewVar R weight gi gv p i j (st.2.1 (gi i * R + j)) ∧
    (AdamDnsRspDnsStep sqrtF req R weight gi gv p i st j).2.2 (gi i * R + j) =
      kernelAssign (st.2.2 (gi i * R + j)) req
        (weight (gi i * R + j) -
          p.lr * adamSparseNewMean R weight gi gv p i j (st.1 (gi i * R + j)) /
            (sqrtF (adamSparseNewVar R weight gi gv p i j (st.2.1 (gi i * R + j))) +
              p.epsilon)) := by
  simp only [AdamDnsRspDnsStep, adamSparseNewMean, adamSparseNewVar,
    adamSparseGradRescaled]
  refine ⟨?_, ?_, ?_⟩
  · rw [writeAt_same]
  · rw [writeAt_same]
  · rw [writeAt_same]

theorem AdamDnsRspDnsFold_val (sqrtF : ℚ → ℚ) (req : OpReqType) (R : ℕ)
    (weight : ℕ → ℚ) (gi : ℕ → ℕ) (gv : ℕ → ℚ) (p : AdamParam) (i : ℕ) :
    ∀ (js : List ℕ), js.Nodup → ∀ (st : (ℕ → ℚ) × (ℕ → ℚ) × (ℕ → ℚ)), ∀ j ∈ js,
      (js.foldl (AdamDnsRspDnsStep sqrtF req R weight gi gv p i) st).1 (gi i * R + j) =
        adamSparseNewMean R weight gi gv p i j (st.1 (gi i * R + j)) ∧
      (js.foldl (AdamDnsRspDnsStep sqrtF req R weight gi gv p i) st).2.1 (gi i * R + j) =
        adamSparseNewVar R weight gi gv p i j (st.2.1 (gi i * R + j)) ∧
      (js.foldl (AdamDnsRspDnsStep sqrtF req R weight gi gv p i) st).2.2 (gi i * R + j) =
        kernelAssign (st.2.2 (gi i * R + j)) req
          (weight (gi i * R + j) -
            p.lr * adamSparseNewMean R weight gi gv p i j (st.1 (gi i * R + j)) /
              (sqrtF (adamSparseNewVar R weight gi gv p i j (st.2.1 (gi i * R + j))) +
                p.epsilon)) := by
  intro js
  induction js with
  | nil => intro _ st j hj; exact absurd hj (List.not_mem_nil j)
  | cons a rest ih =>
    intro hnd st j hj
    have ha : a ∉ rest := (List.nodup_cons.mp hnd).1
    have hnd' : rest.Nodup := (List.nodup_cons.mp hnd).2
    rw [List.foldl_cons]
    rcases List.mem_cons.mp hj with hja | hjr
    · subst hja
      have hk : ∀ j' ∈ rest, gi i * R + j ≠ gi i * R + j' := by
        intro j' hj' h
        exact ha (by rwa [Nat.add_left_cancel h])
      have hfr := AdamDnsRspDnsFold_frame sqrtF req R weight gi gv p i rest
        (AdamDnsRspDnsStep sqrtF req R weight gi gv p i st j) (gi i * R + j) hk
      have hsame := AdamDnsRspDnsStep_same sqrtF req R weight gi gv p i st j
      exact ⟨hfr.1.trans hsame.1, hfr.2.1.trans hsame.2.1, hfr.2.2.trans hsame.2.2⟩
    · have hne : j ≠ a := fun h => ha (h ▸ hjr)
      have hcell : gi i * R + j ≠ gi i * R + a := by
        intro h
        exact hne (Nat.add_left_cancel h)
      have hstep := AdamDnsRspDnsStep_frame sqrtF req R weight gi gv p i st a
        (gi i * R + j) hcell
      have hih := ih hnd' (AdamDnsRspDnsStep sqrtF req R weight gi gv p i st a) j hjr
      rw [hih.1, hih.2.1, hih.2.2, hstep.1, hstep.2.1, hstep.2.2]
      exact ⟨rfl, rfl, rfl⟩

/-- Value of one listed row of `AdamDnsRspDnsKernel` at each of its cells:
the mean, var and output cells receive the Adam formulas, the output through
`KERNEL_ASSIGN` and reading the just-updated mean and var. -/
theorem AdamDnsRspDnsKernelMap_val (sqrtF : ℚ → ℚ) (req : OpReqType) (R : ℕ)
    (weight : ℕ → ℚ) (gi : ℕ → ℕ) (gv : ℕ → ℚ) (p : AdamParam) (i : ℕ)
    (st : (ℕ → ℚ) × (ℕ → ℚ) × (ℕ → ℚ)) (j : ℕ) (hj : j < R) :
    (AdamDnsRspDnsKernelMap sqrtF req R weight gi gv p i st).1 (gi i * R + j) =
      adamSparseNewMean R weight gi gv p i j (st.1 (gi i * R + j)) ∧
    (AdamDnsRspDnsKernelMap sqrtF req R weight gi gv p i st).2.1 (gi i * R + j) =
      adamSparseNewVar R weight gi gv p i j (st.2.1 (gi i * R + j)) ∧
    (AdamDnsRspDnsKernelMap sqrtF req R weight gi gv p i st).2.2 (gi i * R + j) =
      kernelAssign (st.2.2 (gi i * R + j)) req
        (weight (gi i * R + j) -
          p.lr * adamSparseNewMean R weight gi gv p i j (st.1 (gi i * R + j)) /
            (sqrtF (adamSparseNewVar R weight gi gv p i j (st.2.1 (gi i * R + j))) +
              p.epsilon)) :=
  AdamDnsRspDnsFold_val sqrtF req R weight gi gv p i (List.range R)
    (List.nodup_range R) st j (List.mem_range.mpr hj)

/-! ## The spec's effective gradient and clip facts -/

/-- The spec's *effective gradient*: `rescale_grad * grad`, clipped
element-wise to `[-clip_gradient, clip_gradient]` iff `clip_gradient ≥ 0`. -/
def effectiveGradient (rescale_grad clip_gradient g : ℚ) : ℚ :=
  if 0 ≤ clip_gradient then clipMap (rescale_grad * g) clip_gradient
  else rescale_grad * g

theorem clipMap_eq_self {x c : ℚ} (h : |x| ≤ c) : clipMap x c = x := by
  rw [abs_le] at h
  rw [clipMap, min_eq_left h.2, max_eq_left h.1]

theorem clipMap_zero (x : ℚ) : clipMap x 0 = 0 := by
  rw [clipMap, neg_zero]
  exact max_eq_right (min_le_right x 0)

/-- The spec's clipped rescaled gradient for Adam:
`grad' = rescale_grad * grad + wd * weight`, clipped iff
`clip_gradient ≥ 0`. -/
def adamEffectiveGrad (p : AdamParam) (g w : ℚ) : ℚ :=
  if 0 ≤ p.clip_gradient then
    clipMap (p.rescale_grad * g + p.wd * w) p.clip_gradient
  else p.rescale_grad * g + p.wd * w

/-- The spec's clipped rescaled gradient for RMSProp (Hinton):
`grad' = rescale_grad * grad + wd * weight`, clipped iff
`clip_gradient ≥ 0`. -/
def rmspropEffGrad (pr : RMSPropParam) (g w : ℚ) : ℚ :=
  if 0 ≤ pr.clip_gradient then
    clipMap (pr.rescale_grad * g + pr.wd * w) pr.clip_gradient
  else pr.rescale_grad * g + pr.wd * w

/-- The spec's new running statistic for RMSProp (Hinton):
`state_n' = (1 - gamma1) * grad'^2 + gamma1 * state_n`. -/
def rmspropNewN (pr : RMSPropParam) (g w n0 : ℚ) : ℚ :=
  (1 - pr.gamma1) * (rmspropEffGrad pr g w * rmspropEffGrad pr g w) +
    pr.gamma1 * n0

/-- The spec's unclipped new weight for RMSProp (Hinton):
`weight - lr * grad' / sqrt(state_n' + epsilon)`. -/
def rmspropRawOut (sqrtF : ℚ → ℚ) (pr : RMSPropParam) (g w n0 : ℚ) : ℚ :=
  w - pr.lr * (rmspropEffGrad pr g w / sqrtF (rmspropNewN pr g w n0 + pr.epsilon))

/-- C2.  Dense SGD: for every index `i` (under a writing request), the output
equals `(1 - lr*wd) * weight[i] - lr * effective_gradient[i]`, where the
effective gradient is `rescale_grad * grad[i]`, clipped when enabled; and on
the spec scenario `weight=[1], grad=[0.5], lr=0.1, wd=0, rescale_grad=1,
clip_gradient=-1` the output is `[0.95]`. -/
theorem sgd_dense_update_formula (n : ℕ) (weight grad out : ℕ → ℚ)
    (p : SGDParam) (req : OpReqType) (i : ℕ) (hi : i < n)
    (hreq : req = .kWriteTo ∨ req = .kWriteInplace) :
    (SGDUpdate n weight grad p req out).2 i =
      (1 - p.lr * p.wd) * weight i -
        p.lr * effectiveGradient p.rescale_grad p.clip_gradient (grad i) ∧
    (SGDUpdate 1 (fun _ => 1) (fun _ => 1/2) ⟨1/10, 0, 1, -1⟩ .kWriteTo
        (fun _ => 0)).2 0 = 19/20 := by
  constructor
  · simp only [SGDUpdate, if_pos hi, SGDKernelMap, effectiveGradient]
    by_cases hc : 0 ≤ p.clip_gradient
    · rw [if_pos hc, if_pos hc]
      rcases hreq with h | h <;> subst h <;> rfl
    · rw [if_neg hc, if_neg hc]
      rcases hreq with h | h <;> subst h <;>
        simp only [kernelAssign] <;> ring
  · norm_num [SGDUpdate, SGDKernelMap, kernelAssign]

theorem sgd_dense_update_formula_witness :
    (0 < 1 ∧ (OpReqType.kWriteTo = OpReqType.kWriteTo ∨
        OpReqType.kWriteTo = OpReqType.kWriteInplace)) ∧
    ((SGDUpdate 1 (fun _ => 2) (fun _ => 3) ⟨1/2, 1/4, 1, -1⟩ .kWriteTo
        (fun _ => 0)).2 0 =
      (1 - (1/2 : ℚ) * (1/4)) * 2 -
        (1/2) * effectiveGradient 1 (-1) 3 ∧
      (SGDUpdate 1 (fun _ => 1) (fun _ => 1/2) ⟨1/10, 0, 1, -1⟩ .kWriteTo
        (fun _ => 0)).2 0 = 19/20) :=
  ⟨⟨by decide, Or.inl rfl⟩,
    sgd_dense_update_formula 1 (fun _ => 2) (fun _ => 3) (fun _ => 0)
      ⟨1/2, 1/4, 1, -1⟩ .kWriteTo 0 (by decide) (Or.inl rfl)⟩

/-- C6.  Clip is a no-op within bound: if `clip_gradient ≥ 0` and
`|rescale_grad * grad[i]| ≤ clip_gradient` at every index, the dense SGD
kernel's output is identical to its output with clipping disabled
(`clip_gradient = -1`) and all other hyperparameters equal. -/
theorem sgd_clip_noop_within_bound (n : ℕ) (weight grad out : ℕ → ℚ)
    (p : SGDParam) (req : OpReqType) (hc : 0 ≤ p.clip_gradient)
    (hbound : ∀ i < n, |p.rescale_grad * grad i| ≤ p.clip_gradient) :
    (SGDUpdate n weight grad p req out).2 =
      (SGDUpdate n weight grad
        { p with clip_gradient := -1 } req out).2 := by
  funext k
  simp only [SGDUpdate]
  by_cases hk : k < n
  · rw [if_pos hk, if_pos hk]
    simp only [SGDKernelMap]
    rw [if_pos hc, if_neg (by norm_num : ¬ (0 : ℚ) ≤ -1)]
    rw [clipMap_eq_self (hbound k hk)]
    have h : (1 - p.lr * p.wd) * weight k - p.lr * (p.rescale_grad * grad k) =
        (1 - p.lr * p.wd) * weight k - p.lr * p.rescale_grad * grad k := by
      ring
    rw [h]
  · rw [if_neg hk, if_neg hk]

theorem sgd_clip_noop_within_bound_witness :
    ((0 : ℚ) ≤ 2 ∧ (∀ i < 1, |(1 : ℚ) * (fun _ => (3 : ℚ)/2) i| ≤ 2)) ∧
    (SGDUpdate 1 (fun _ => 5) (fun _ => 3/2) ⟨1/10, 0, 1, 2⟩ .kWriteTo
        (fun _ => 0)).2 =
      (SGDUpdate 1 (fun _ => 5) (fun _ => 3/2)
        { (⟨1/10, 0, 1, 2⟩ : SGDParam) with clip_gradient := -1 } .kWriteTo
        (fun _ => 0)).2 :=
  ⟨⟨by norm_num, by intro i _; norm_num [abs_le]⟩,
    sgd_clip_noop_within_bound 1 (fun _ => 5) (fun _ => 3/2) (fun _ => 0)
      ⟨1/10, 0, 1, 2⟩ .kWriteTo (by norm_num) (by intro i _; norm_num [abs_le])⟩

/-- C5.  Clip sentinel: gradient clipping is applied iff `clip_gradient ≥ 0`
(a bound of exactly `0` clips — the effective gradient collapses to `0` — and
any negative bound disables clipping), weight clipping in RMSProp is applied
iff `clip_weights ≥ 0`, and `rescale_grad` and `wd` are applied before any
clipping (the clipped quantity is already `rescale_grad * grad` for SGD and
`rescale_grad * grad + wd * weight` for RMSProp). -/
theorem clip_sentinel_nonneg (n : ℕ) (weight grad mom state_n out out2 : ℕ → ℚ)
    (ps : SGDParam) (pm : SGDMomParam) (pr : RMSPropParam) (pa : AdamParam)
    (pra : RMSPropAlexParam) (sqrtF : ℚ → ℚ) (i : ℕ) (hi : i < n) :
    (SGDKernelMap weight grad ps .kWriteTo out i =
      (1 - ps.lr * ps.wd) * weight i -
        ps.lr * effectiveGradient ps.rescale_grad ps.clip_gradient (grad i)) ∧
    (ps.clip_gradient = 0 → SGDKernelMap weight grad ps .kWriteTo out i =
      (1 - ps.lr * ps.wd) * weight i) ∧
    (ps.clip_gradient < 0 → SGDKernelMap weight grad ps .kWriteTo out i =
      (1 - ps.lr * ps.wd) * weight i - ps.lr * ps.rescale_grad * grad i) ∧
    (SGDMomKernelMomNew mom weight grad pm i =
      pm.momentum * mom i - pm.lr * pm.wd * weight i -
        pm.lr * effectiveGradient pm.rescale_grad pm.clip_gradient (grad i)) ∧
    ((RMSPropUpdate sqrtF n weight grad state_n pr .kWriteTo out).2.1 i =
      rmspropNewN pr (grad i) (weight i) (state_n i)) ∧
    (0 ≤ pr.clip_weights →
      (RMSPropUpdate sqrtF n weight grad state_n pr .kWriteTo out).2.2 i =
        clipMap (rmspropRawOut sqrtF pr (grad i) (weight i) (state_n i))
          pr.clip_weights) ∧
    (pr.clip_weights < 0 →
      (RMSPropUpdate sqrtF n weight grad state_n pr .kWriteTo out).2.2 i =
        rmspropRawOut sqrtF pr (grad i) (weight i) (state_n i)) ∧
    (MP_SGDMomKernelMomNew mom weight grad pm i =
      pm.momentum * mom i - pm.lr * pm.wd * weight i -
        pm.lr * effectiveGradient pm.rescale_grad pm.clip_gradient (grad i)) ∧
    ((AdamUpdate sqrtF n weight grad mom state_n pa .kWriteTo out).2.1 i =
      pa.beta1 * mom i + (1 - pa.beta1) *
        adamEffectiveGrad pa (grad i) (weight i)) ∧
    ((0 ≤ pra.clip_weights →
      (RMSPropAlexUpdate sqrtF n weight grad state_n mom out pra .kWriteTo out2).2.2.2.2 i =
        clipMap
          (weight i +
            (RMSPropAlexUpdate sqrtF n weight grad state_n mom out pra .kWriteTo out2).2.2.2.1 i)
          pra.clip_weights) ∧
     (pra.clip_weights < 0 →
      (RMSPropAlexUpdate sqrtF n weight grad state_n mom out pra .kWriteTo out2).2.2.2.2 i =
        weight i +
          (RMSPropAlexUpdate sqrtF n weight grad state_n mom out pra .kWriteTo out2).2.2.2.1 i)) := by
  refine ⟨?_, ?_, ?_, ?_, ?_, ?_, ?_, ?_, ?_, ?_, ?_⟩
  · simp only [SGDKernelMap, effectiveGradient]
    by_cases hc : 0 ≤ ps.clip_gradient
    · simp only [if_pos hc, kernelAssign_write]
    · simp only [if_neg hc, kernelAssign_write]
      ring
  · intro h0
    simp only [SGDKernelMap, h0, kernelAssign_write]
    rw [if_pos (le_refl (0 : ℚ)), clipMap_zero]
    ring
  · intro hneg
    simp only [SGDKernelMap, if_neg (not_le.mpr hneg), kernelAssign_write]
  · simp only [SGDMomKernelMomNew, effectiveGradient]
    by_cases hc : 0 ≤ pm.clip_gradient
    · simp only [if_pos hc]
    · simp only [if_neg hc]
      ring
  · simp only [RMSPropUpdate, if_pos hi, rmspropNewN, rmspropEffGrad]
    by_cases hc : 0 ≤ pr.clip_gradient
    · simp only [if_pos hc]
    · simp only [if_neg hc]
  · intro hw
    simp only [RMSPropUpdate, if_pos hi, if_pos hw, rmspropRawOut, rmspropNewN,
      rmspropEffGrad, kernelAssign_write]
    by_cases hc : 0 ≤ pr.clip_gradient
    · simp only [if_pos hc]
    · simp only [if_neg hc]
  · intro hw
    simp only [RMSPropUpdate, if_pos hi, if_neg (not_le.mpr hw), rmspropRawOut,
      rmspropNewN, rmspropEffGrad, kernelAssign_write]
    by_cases hc : 0 ≤ pr.clip_gradient
    · simp only [if_pos hc]
    · simp only [if_neg hc]
  · simp only [MP_SGDMomKernelMomNew, effectiveGradient]
    by_cases hc : 0 ≤ pm.clip_gradient
    · simp only [if_pos hc]
    · simp only [if_neg hc]
      ring
  · simp only [AdamUpdate, if_pos hi, adamEffectiveGrad]
    by_cases hc : 0 ≤ pa.clip_gradient
    · simp only [if_pos hc]
    · simp only [if_neg hc]
  · intro hw
    simp only [RMSPropAlexUpdate, if_pos hi, if_pos hw, kernelAssign_write]
  · intro hw
    simp only [RMSPropAlexUpdate, if_pos hi, if_neg (not_le.mpr hw),
      kernelAssign_write]

theorem clip_sentinel_nonneg_witness :
    0 < 1 ∧
    SGDKernelMap (fun _ => 2) (fun _ => 3) ⟨1/2, 1/4, 1, -1⟩ .kWriteTo
        (fun _ => 0) 0 =
      (1 - (1/2 : ℚ) * (1/4)) * 2 - (1/2) * effectiveGradient 1 (-1) 3 :=
  ⟨by decide,
    (clip_sentinel_nonneg 1 (fun _ => 2) (fun _ => 3) (fun _ => 0) (fun _ => 0)
      (fun _ => 0) (fun _ => 0) ⟨1/2, 1/4, 1, -1⟩ ⟨1, 1, 0, 1, -1⟩
      ⟨1, 1, 0, 0, 1, -1, -1⟩ ⟨1/1000, 9/10, 999/1000, 1/100000000, 0, 1, -1⟩
      ⟨1, 1, 1, 1, 0, 1, -1, -1⟩ (fun x => x) 0 (by decide)).1⟩

/-- C4.  SGD with momentum (dense kernel and sparse DnsRspDns kernel): the
momentum buffer is updated in place to
`mom' = momentum * mom - lr*wd * weight - lr * effective_gradient` (weight
decay folded into the momentum accumulator), and the new weight equals
`weight + mom'`. -/
theorem sgdmom_update_formula (n : ℕ) (weight grad mom out : ℕ → ℚ)
    (p : SGDMomParam) (req : OpReqType) (i : ℕ) (hi : i < n)
    (hreq : req = .kWriteTo ∨ req = .kWriteInplace)
    (R : ℕ) (sweight gv mout sout : ℕ → ℚ) (gi : ℕ → ℕ) (r j : ℕ)
    (hj : j < R) :
    ((SGDMomUpdate n weight grad mom p req out).2.1 i =
        p.momentum * mom i - p.lr * p.wd * weight i -
          p.lr * effectiveGradient p.rescale_grad p.clip_gradient (grad i) ∧
      (SGDMomUpdate n weight grad mom p req out).2.2 i =
        weight i + (SGDMomUpdate n weight grad mom p req out).2.1 i) ∧
    ((SGDMomDnsRspDnsKernelMap req R sweight gi gv p r (mout, sout)).1
        (gi r * R + j) =
        p.momentum * mout (gi r * R + j) - p.lr * p.wd * sweight (gi r * R + j) -
          p.lr * effectiveGradient p.rescale_grad p.clip_gradient
            (gv (r * R + j)) ∧
      (SGDMomDnsRspDnsKernelMap req R sweight gi gv p r (mout, sout)).2
        (gi r * R + j) =
        sweight (gi r * R + j) +
          (SGDMomDnsRspDnsKernelMap req R sweight gi gv p r (mout, sout)).1
            (gi r * R + j)) := by
  have hval := SGDMomDnsRspDnsKernelMap_val req R sweight gi gv p r (mout, sout) j hj
  refine ⟨⟨?_, ?_⟩, ?_, ?_⟩
  · simp only [SGDMomUpdate, if_pos hi, SGDMomKernelMomNew, effectiveGradient]
    by_cases hc : 0 ≤ p.clip_gradient
    · simp only [if_pos hc]
    · simp only [if_neg hc]
      ring
  · simp only [SGDMomUpdate, if_pos hi]
    rcases hreq with h | h <;> subst h <;> rfl
  · rw [hval.1]
    simp only [sgdMomSparseNewMom, effectiveGradient]
    by_cases hc : 0 ≤ p.clip_gradient
    · simp only [if_pos hc]
    · simp only [if_neg hc]
      ring
  · rw [hval.2, hval.1]
    rcases hreq with h | h <;> subst h <;> rfl

theorem sgdmom_update_formula_witness :
    (0 < 1 ∧ (OpReqType.kWriteTo = OpReqType.kWriteTo ∨
        OpReqType.kWriteTo = OpReqType.kWriteInplace) ∧ 0 < 1) ∧
    (((SGDMomUpdate 1 (fun _ => 2) (fun _ => 3) (fun _ => 5) ⟨1/2, 1/4, 1/8, 1, -1⟩
          .kWriteTo (fun _ => 0)).2.1 0 =
        (1/4 : ℚ) * 5 - (1/2) * (1/8) * 2 - (1/2) * effectiveGradient 1 (-1) 3 ∧
      (SGDMomUpdate 1 (fun _ => 2) (fun _ => 3) (fun _ => 5) ⟨1/2, 1/4, 1/8, 1, -1⟩
          .kWriteTo (fun _ => 0)).2.2 0 =
        2 + (SGDMomUpdate 1 (fun _ => 2) (fun _ => 3) (fun _ => 5)
          ⟨1/2, 1/4, 1/8, 1, -1⟩ .kWriteTo (fun _ => 0)).2.1 0) ∧
     ((SGDMomDnsRspDnsKernelMap .kWriteTo 1 (fun _ => 2) (fun _ => 0) (fun _ => 3)
          ⟨1/2, 1/4, 1/8, 1, -1⟩ 0 (fun _ => 5, fun _ => 0)).1 (0 * 1 + 0) =
        (1/4 : ℚ) * 5 - (1/2) * (1/8) * 2 - (1/2) * effectiveGradient 1 (-1) 3 ∧
      (SGDMomDnsRspDnsKernelMap .kWriteTo 1 (fun _ => 2) (fun _ => 0) (fun _ => 3)
          ⟨1/2, 1/4, 1/8, 1, -1⟩ 0 (fun _ => 5, fun _ => 0)).2 (0 * 1 + 0) =
        2 + (SGDMomDnsRspDnsKernelMap .kWriteTo 1 (fun _ => 2) (fun _ => 0)
          (fun _ => 3) ⟨1/2, 1/4, 1/8, 1, -1⟩ 0 (fun _ => 5, fun _ => 0)).1
          (0 * 1 + 0))) :=
  ⟨⟨by decide, Or.inl rfl, by decide⟩,
    sgdmom_update_formula 1 (fun _ => 2) (fun _ => 3) (fun _ => 5) (fun _ => 0)
      ⟨1/2, 1/4, 1/8, 1, -1⟩ .kWriteTo 0 (by decide) (Or.inl rfl)
      1 (fun _ => 2) (fun _ => 3) (fun _ => 5) (fun _ => 0) (fun _ => 0) 0 0
      (by decide)⟩

/-- C3.  Adam (dense and sparse kernels): for every index, with
`grad' = rescale_grad*grad + wd*weight` (clipped when enabled),
`mean' = beta1*mean + (1-beta1)*grad'`, `var' = beta2*var + (1-beta2)*grad'^2`
and `new_weight = weight - lr*mean' / (sqrt(var') + epsilon)`, with no
bias-correction term; and the spec's scenario yields `mean' = 0.1`,
`var' = 0.001` and an output within `10^-5` of `-0.003162` for any square
root with `sqrt(0.001) ∈ [0.0316, 0.0317]`. -/
theorem adam_update_formula (sqrtF : ℚ → ℚ) (n : ℕ)
    (weight grad mean var out : ℕ → ℚ) (p : AdamParam) (req : OpReqType)
    (i : ℕ) (hi : i < n) (hreq : req = .kWriteTo ∨ req = .kWriteInplace)
    (R : ℕ) (sweight gv smean svar sout : ℕ → ℚ) (gi : ℕ → ℕ) (r j : ℕ)
    (hj : j < R)
    (hs : 316/10000 ≤ sqrtF (1/1000) ∧ sqrtF (1/1000) ≤ 317/10000) :
    ((AdamUpdate sqrtF n weight grad mean var p req out).2.1 i =
        p.beta1 * mean i + (1 - p.beta1) * adamEffectiveGrad p (grad i) (weight i) ∧
      (AdamUpdate sqrtF n weight grad mean var p req out).2.2.1 i =
        p.beta2 * var i + (1 - p.beta2) *
          (adamEffectiveGrad p (grad i) (weight i) *
            adamEffectiveGrad p (grad i) (weight i)) ∧
      (AdamUpdate sqrtF n weight grad mean var p req out).2.2.2 i =
        weight i -
          p.lr * (AdamUpdate sqrtF n weight grad mean var p req out).2.1 i /
            (sqrtF ((AdamUpdate sqrtF n weight grad mean var p req out).2.2.1 i) +
              p.epsilon)) ∧
    ((AdamDnsRspDnsKernelMap sqrtF req R sweight gi gv p r (smean, svar, sout)).1
        (gi r * R + j) =
        p.beta1 * smean (gi r * R + j) + (1 - p.beta1) *
          adamEffectiveGrad p (gv (r * R + j)) (sweight (gi r * R + j)) ∧
      (AdamDnsRspDnsKernelMap sqrtF req R sweight gi gv p r (smean, svar, sout)).2.1
        (gi r * R + j) =
        p.beta2 * svar (gi r * R + j) + (1 - p.beta2) *
          (adamEffectiveGrad p (gv (r * R + j)) (sweight (gi r * R + j)) *
            adamEffectiveGrad p (gv (r * R + j)) (sweight (gi r * R + j))) ∧
      (AdamDnsRspDnsKernelMap sqrtF req R sweight gi gv p r (smean, svar, sout)).2.2
        (gi r * R + j) =
        sweight (gi r * R + j) -
          p.lr * (AdamDnsRspDnsKernelMap sqrtF req R sweight gi gv p r
              (smean, svar, sout)).1 (gi r * R + j) /
            (sqrtF ((AdamDnsRspDnsKernelMap sqrtF req R sweight gi gv p r
                (smean, svar, sout)).2.1 (gi r * R + j)) + p.epsilon)) ∧
    ((AdamUpdate sqrtF 1 (fun _ => 0) (fun _ => 1) (fun _ => 0) (fun _ => 0)
        ⟨1/1000, 9/10, 999/1000, 1/100000000, 0, 1, -1⟩ .kWriteTo
        (fun _ => 0)).2.1 0 = 1/10 ∧
      (AdamUpdate sqrtF 1 (fun _ => 0) (fun _ => 1) (fun _ => 0) (fun _ => 0)
        ⟨1/1000, 9/10, 999/1000, 1/100000000, 0, 1, -1⟩ .kWriteTo
        (fun _ => 0)).2.2.1 0 = 1/1000 ∧
      (AdamUpdate sqrtF 1 (fun _ => 0) (fun _ => 1) (fun _ => 0) (fun _ => 0)
        ⟨1/1000, 9/10, 999/1000, 1/100000000, 0, 1, -1⟩ .kWriteTo
        (fun _ => 0)).2.2.2 0 =
        0 - (1/1000) * (1/10) / (sqrtF (1/1000) + 1/100000000) ∧
      |(AdamUpdate sqrtF 1 (fun _ => 0) (fun _ => 1) (fun _ => 0) (fun _ => 0)
          ⟨1/1000, 9/10, 999/1000, 1/100000000, 0, 1, -1⟩ .kWriteTo
          (fun _ => 0)).2.2.2 0 - (-3162/1000000)| ≤ 1/100000) := by
  have hval := AdamDnsRspDnsKernelMap_val sqrtF req R sweight gi gv p r
    (smean, svar, sout) j hj
  have harg : gv (r * R + j) * p.rescale_grad + sweight (gi r * R + j) * p.wd =
      p.rescale_grad * gv (r * R + j) + p.wd * sweight (gi r * R + j) := by
    ring
  refine ⟨⟨?_, ?_, ?_⟩, ⟨?_, ?_, ?_⟩, ?_, ?_, ?_, ?_⟩
  · simp only [AdamUpdate, if_pos hi, adamEffectiveGrad]
    by_cases hc : 0 ≤ p.clip_gradient
    · simp only [if_pos hc]
    · simp only [if_neg hc]
  · simp only [AdamUpdate, if_pos hi, adamEffectiveGrad]
    by_cases hc : 0 ≤ p.clip_gradient
    · simp only [if_pos hc]
    · simp only [if_neg hc]
  · simp only [AdamUpdate, if_pos hi]
    rcases hreq with h | h <;> subst h <;> rfl
  · rw [hval.1]
    simp only [adamSparseNewMean, adamSparseGradRescaled, adamEffectiveGrad, harg]
    by_cases hc : 0 ≤ p.clip_gradient
    · simp only [if_pos hc]
    · simp only [if_neg hc]
  · rw [hval.2.1]
    simp only [adamSparseNewVar, adamSparseGradRescaled, adamEffectiveGrad, harg]
    by_cases hc : 0 ≤ p.clip_gradient
    · simp only [if_pos hc]
    · simp only [if_neg hc]
  · rw [hval.2.2, hval.1, hval.2.1]
    rcases hreq with h | h <;> subst h <;> rfl
  · norm_num [AdamUpdate]
  · norm_num [AdamUpdate]
  · norm_num [AdamUpdate, kernelAssign_write]
  · rcases hs with ⟨hs1, hs2⟩
    have hout : (AdamUpdate sqrtF 1 (fun _ => 0) (fun _ => 1) (fun _ => 0)
        (fun _ => 0) ⟨1/1000, 9/10, 999/1000, 1/100000000, 0, 1, -1⟩ .kWriteTo
        (fun _ => 0)).2.2.2 0 =
        0 - (1/1000) * (1/10) / (sqrtF (1/1000) + 1/100000000) := by
      norm_num [AdamUpdate, kernelAssign_write]
    rw [hout]
    have hd : (0 : ℚ) < sqrtF (1/1000) + 1/100000000 := by linarith
    rw [abs_le]
    constructor
    · have h1 : (1/1000 : ℚ) * (1/10) / (sqrtF (1/1000) + 1/100000000) ≤
          3172/1000000 := by
        rw [div_le_iff₀ hd]
        linarith
      linarith
    · have h2 : (3152/1000000 : ℚ) ≤
          (1/1000) * (1/10) / (sqrtF (1/1000) + 1/100000000) := by
        rw [le_div_iff₀ hd]
        linarith
      linarith

theorem adam_update_formula_witness :
    (0 < 1 ∧ (OpReqType.kWriteTo = OpReqType.kWriteTo ∨
        OpReqType.kWriteTo = OpReqType.kWriteInplace) ∧
      ((316/10000 : ℚ) ≤ 3162/100000 ∧ (3162/100000 : ℚ) ≤ 317/10000)) ∧
    ((AdamUpdate (fun _ => 3162/100000) 1 (fun _ => 0) (fun _ => 1) (fun _ => 0)
        (fun _ => 0) ⟨1/1000, 9/10, 999/1000, 1/100000000, 0, 1, -1⟩ .kWriteTo
        (fun _ => 0)).2.1 0 = 1/10 ∧
      (AdamUpdate (fun _ => 3162/100000) 1 (fun _ => 0) (fun _ => 1) (fun _ => 0)
        (fun _ => 0) ⟨1/1000, 9/10, 999/1000, 1/100000000, 0, 1, -1⟩ .kWriteTo
        (fun _ => 0)).2.2.1 0 = 1/1000 ∧
      (AdamUpdate (fun _ => 3162/100000) 1 (fun _ => 0) (fun _ => 1) (fun _ => 0)
        (fun _ => 0) ⟨1/1000, 9/10, 999/1000, 1/100000000, 0, 1, -1⟩ .kWriteTo
        (fun _ => 0)).2.2.2 0 =
        0 - (1/1000) * (1/10) / ((3162/100000 : ℚ) + 1/100000000) ∧
      |(AdamUpdate (fun _ => 3162/100000) 1 (fun _ => 0) (fun _ => 1) (fun _ => 0)
          (fun _ => 0) ⟨1/1000, 9/10, 999/1000, 1/100000000, 0, 1, -1⟩ .kWriteTo
          (fun _ => 0)).2.2.2 0 - (-3162/1000000)| ≤ 1/100000) :=
  ⟨⟨by decide, Or.inl rfl, by norm_num, by norm_num⟩,
    (adam_update_formula (fun _ => 3162/100000) 1 (fun _ => 0) (fun _ => 1)
      (fun _ => 0) (fun _ => 0) (fun _ => 0)
      ⟨1/1000, 9/10, 999/1000, 1/100000000, 0, 1, -1⟩ .kWriteTo 0 (by decide)
      (Or.inl rfl) 1 (fun _ => 0) (fun _ => 1) (fun _ => 0) (fun _ => 0)
      (fun _ => 0) (fun _ => 0) 0 0 (by decide)
      ⟨by norm_num, by norm_num⟩).2.2⟩

/-- C1.  Lazy update.  DnsRspDns family (SGD, SGD-momentum, Adam): any row
`r` whose index is not listed in the row-sparse gradient has its output
(i.e. the in-place weight) and momentum/mean/var cells unchanged by the
launch.  RspDns family (SGD, SGD-momentum): any stored weight row whose
dense-gradient row is entirely zero is left unchanged, so no weight decay is
applied to such rows. -/
theorem sparse_lazy_update (sqrtF : ℚ → ℚ) (req : OpReqType) (N R : ℕ)
    (weight gv mom mean var out : ℕ → ℚ) (gi : ℕ → ℕ)
    (ps : SGDParam) (pm : SGDMomParam) (pa : AdamParam)
    (r j : ℕ) (hj : j < R) (hr : ∀ i < N, gi i ≠ r)
    (C N2 : ℕ) (sweight2 dgrad mom2 out2 : ℕ → ℚ) (r2 j2 : ℕ) (hj2 : j2 < C)
    (h0 : ∀ jj < C, dgrad (r2 * C + jj) = 0) :
    (SGDDnsRspLaunch req N R weight gi gv ps out (r * R + j) =
      out (r * R + j)) ∧
    ((SGDMomDnsRspDnsLaunch req N R weight gi gv pm mom out).1 (r * R + j) =
        mom (r * R + j) ∧
      (SGDMomDnsRspDnsLaunch req N R weight gi gv pm mom out).2 (r * R + j) =
        out (r * R + j)) ∧
    ((AdamDnsRspDnsLaunch sqrtF req N R weight gi gv pa mean var out).1
        (r * R + j) = mean (r * R + j) ∧
      (AdamDnsRspDnsLaunch sqrtF req N R weight gi gv pa mean var out).2.1
        (r * R + j) = var (r * R + j) ∧
      (AdamDnsRspDnsLaunch sqrtF req N R weight gi gv pa mean var out).2.2
        (r * R + j) = out (r * R + j)) ∧
    (SGDRspDnsLaunch req N2 C sweight2 dgrad ps out2 (r2 * C + j2) =
      out2 (r2 * C + j2)) ∧
    ((SGDMomRspDnsLaunch req N2 C sweight2 dgrad pm mom2 out2).1 (r2 * C + j2) =
        mom2 (r2 * C + j2) ∧
      (SGDMomRspDnsLaunch req N2 C sweight2 dgrad pm mom2 out2).2 (r2 * C + j2) =
        out2 (r2 * C + j2)) := by
  have hk : ∀ i < N, ∀ j' < R, r * R + j ≠ gi i * R + j' := by
    intro i hi j' hj'
    exact block_cells_disjoint hj hj' (Ne.symm (hr i hi))
  refine ⟨?_, ?_, ?_, ?_, ?_⟩
  · exact SGDDnsRspLaunch_frame req N R weight gi gv ps out _ hk
  · exact SGDMomDnsRspDnsLaunch_frame req N R weight gi gv pm mom out _ hk
  · exact AdamDnsRspDnsLaunch_frame sqrtF req N R weight gi gv pa mean var out _ hk
  · exact SGDRspDnsLaunch_zero_row req N2 C sweight2 dgrad ps out2 r2 j2 hj2 h0
  · exact SGDMomRspDnsLaunch_zero_row req N2 C sweight2 dgrad pm mom2 out2 r2 j2 hj2 h0

theorem sparse_lazy_update_witness :
    (0 < 1 ∧ (∀ i < 1, (fun _ => 0 : ℕ → ℕ) i ≠ 1) ∧ 0 < 1 ∧
      (∀ jj < 1, (fun _ => (0 : ℚ)) (0 * 1 + jj) = 0)) ∧
    (SGDDnsRspLaunch .kWriteInplace 1 1 (fun _ => 2) (fun _ => 0) (fun _ => 3)
        ⟨1/2, 1/4, 1, -1⟩ (fun _ => 7) (1 * 1 + 0) = 7 ∧
      ((SGDMomDnsRspDnsLaunch .kWriteInplace 1 1 (fun _ => 2) (fun _ => 0)
          (fun _ => 3) ⟨1/2, 1/4, 1/8, 1, -1⟩ (fun _ => 5) (fun _ => 7)).1
          (1 * 1 + 0) = 5 ∧
        (SGDMomDnsRspDnsLaunch .kWriteInplace 1 1 (fun _ => 2) (fun _ => 0)
          (fun _ => 3) ⟨1/2, 1/4, 1/8, 1, -1⟩ (fun _ => 5) (fun _ => 7)).2
          (1 * 1 + 0) = 7) ∧
      ((AdamDnsRspDnsLaunch (fun x => x) .kWriteInplace 1 1 (fun _ => 2)
          (fun _ => 0) (fun _ => 3) ⟨1/1000, 9/10, 999/1000, 1/100000000, 0, 1, -1⟩
          (fun _ => 5) (fun _ => 6) (fun _ => 7)).1 (1 * 1 + 0) = 5 ∧
        (AdamDnsRspDnsLaunch (fun x => x) .kWriteInplace 1 1 (fun _ => 2)
          (fun _ => 0) (fun _ => 3) ⟨1/1000, 9/10, 999/1000, 1/100000000, 0, 1, -1⟩
          (fun _ => 5) (fun _ => 6) (fun _ => 7)).2.1 (1 * 1 + 0) = 6 ∧
        (AdamDnsRspDnsLaunch (fun x => x) .kWriteInplace 1 1 (fun _ => 2)
          (fun _ => 0) (fun _ => 3) ⟨1/1000, 9/10, 999/1000, 1/100000000, 0, 1, -1⟩
          (fun _ => 5) (fun _ => 6) (fun _ => 7)).2.2 (1 * 1 + 0) = 7) ∧
      (SGDRspDnsLaunch .kWriteInplace 1 1 (fun _ => 2) (fun _ => 0)
        ⟨1/2, 1/4, 1, -1⟩ (fun _ => 7) (0 * 1 + 0) = 7) ∧
      ((SGDMomRspDnsLaunch .kWriteInplace 1 1 (fun _ => 2) (fun _ => 0)
          ⟨1/2, 1/4, 1/8, 1, -1⟩ (fun _ => 5) (fun _ => 7)).1 (0 * 1 + 0) = 5 ∧
        (SGDMomRspDnsLaunch .kWriteInplace 1 1 (fun _ => 2) (fun _ => 0)
          ⟨1/2, 1/4, 1/8, 1, -1⟩ (fun _ => 5) (fun _ => 7)).2 (0 * 1 + 0) = 7)) :=
  ⟨⟨by decide, fun _ _ => zero_ne_one, by decide, fun jj _ => rfl⟩,
    sparse_lazy_update (fun x => x) .kWriteInplace 1 1 (fun _ => 2) (fun _ => 3)
      (fun _ => 5) (fun _ => 5) (fun _ => 6) (fun _ => 7) (fun _ => 0)
      ⟨1/2, 1/4, 1, -1⟩ ⟨1/2, 1/4, 1/8, 1, -1⟩
      ⟨1/1000, 9/10, 999/1000, 1/100000000, 0, 1, -1⟩ 1 0 (by decide)
      (fun _ _ => zero_ne_one) 1 1 (fun _ => 2) (fun _ => 0) (fun _ => 5)
      (fun _ => 7) 0 0 (by decide) (fun jj _ => rfl)⟩

/-- C7.  Sparse-gradient driver preconditions (SGD, SGD-momentum and Adam
DnsRspDns drivers): if the sparse gradient is uninitialized or the write mode
is `kNullOp` (skip), the call returns with every output and state buffer
untouched; otherwise any write mode other than `kWriteInplace` is a fatal
precondition failure producing no partial output. -/
theorem sparse_driver_preconditions (sqrtF : ℚ → ℚ) (ps : SGDParam)
    (pm : SGDMomParam) (pa : AdamParam) (wRows L momSize meanSize varSize : ℕ)
    (weight mom mean var out : ℕ → ℚ) (g : RspGrad) (req : OpReqType) :
    (¬ g.storage_initialized ∨ req = .kNullOp →
      SGDUpdateDnsRspImpl ps wRows L weight g req out = .ok out ∧
      SGDMomUpdateDnsRspDnsImpl pm wRows L weight g mom momSize req out =
        .ok (mom, out) ∧
      AdamUpdateDnsRspDnsImpl sqrtF pa wRows L weight g mean var meanSize
        varSize req out = .ok (mean, var, out)) ∧
    (g.storage_initialized → req ≠ .kNullOp → req ≠ .kWriteInplace →
      (∃ m, SGDUpdateDnsRspImpl ps wRows L weight g req out = .fatal m) ∧
      (∃ m, SGDMomUpdateDnsRspDnsImpl pm wRows L weight g mom momSize req out =
        .fatal m) ∧
      (∃ m, AdamUpdateDnsRspDnsImpl sqrtF pa wRows L weight g mean var meanSize
        varSize req out = .fatal m)) := by
  constructor
  · intro h
    refine ⟨?_, ?_, ?_⟩
    · rw [SGDUpdateDnsRspImpl, if_pos h]
    · rw [SGDMomUpdateDnsRspDnsImpl, if_pos h]
    · rw [AdamUpdateDnsRspDnsImpl, if_pos h]
  · intro hinit hnull hwi
    have hcond : ¬ (¬ g.storage_initialized ∨ req = .kNullOp) := by
      rw [not_or, not_not]
      exact ⟨hinit, hnull⟩
    refine ⟨?_, ?_, ?_⟩
    · rw [SGDUpdateDnsRspImpl, if_neg hcond, if_pos hwi]
      exact ⟨_, rfl⟩
    · rw [SGDMomUpdateDnsRspDnsImpl, if_neg hcond, if_pos hwi]
      exact ⟨_, rfl⟩
    · rw [AdamUpdateDnsRspDnsImpl, if_neg hcond, if_pos hwi]
      exact ⟨_, rfl⟩

theorem sparse_driver_preconditions_witness :
    ((¬ RspGrad.storage_initialized ⟨0, fun _ => 0, fun _ => 0⟩ ∨
        OpReqType.kWriteTo = OpReqType.kNullOp) ∧
      RspGrad.storage_initialized ⟨1, fun _ => 0, fun _ => 3⟩ ∧
      OpReqType.kWriteTo ≠ OpReqType.kNullOp ∧
      OpReqType.kWriteTo ≠ OpReqType.kWriteInplace) ∧
    (SGDUpdateDnsRspImpl ⟨1, 0, 1, -1⟩ 1 1 (fun _ => 2)
        ⟨0, fun _ => 0, fun _ => 0⟩ .kWriteTo (fun _ => 7) =
      .ok (fun _ => 7)) ∧
    (∃ m, SGDUpdateDnsRspImpl ⟨1, 0, 1, -1⟩ 1 1 (fun _ => 2)
        ⟨1, fun _ => 0, fun _ => 3⟩ .kWriteTo (fun _ => 7) = .fatal m) :=
  ⟨⟨Or.inl (by decide), by decide, by decide, by decide⟩,
    (sparse_driver_preconditions (fun x => x) ⟨1, 0, 1, -1⟩ ⟨1, 1, 0, 1, -1⟩
      ⟨1, 1, 1, 1, 0, 1, -1⟩ 1 1 1 1 1 (fun _ => 2) (fun _ => 5) (fun _ => 5)
      (fun _ => 6) (fun _ => 7) ⟨0, fun _ => 0, fun _ => 0⟩ .kWriteTo).1
      (Or.inl (by decide)) |>.1,
    ((sparse_driver_preconditions (fun x => x) ⟨1, 0, 1, -1⟩ ⟨1, 1, 0, 1, -1⟩
      ⟨1, 1, 1, 1, 0, 1, -1⟩ 1 1 1 1 1 (fun _ => 2) (fun _ => 5) (fun _ => 5)
      (fun _ => 6) (fun _ => 7) ⟨1, fun _ => 0, fun _ => 3⟩ .kWriteTo).2
      (by decide) (by decide) (by decide)).1⟩

/-- C8 counterexample: the storage combination (weight dense, gradient dense,
momentum row-sparse) is outside SGD-momentum's sparse-supported list, yet the
entry point fails fatally at the weight/momentum consistency check instead of
delegating to the densify fallback — refuting the claim that SGD-momentum
delegates every unsupported combination. -/
theorem sgdmom_dispatch_not_always_fallback :
    ¬ SGDMomSupported .kDefaultStorage .kDefaultStorage .kRowSparseStorage ∧
    SGDMomUpdateExDispatch .kDefaultStorage .kDefaultStorage .kRowSparseStorage =
      .fatalInconsistent ∧
    SGDMomUpdateExDispatch .kDefaultStorage .kDefaultStorage .kRowSparseStorage ≠
      .fallback := by
  refine ⟨?_, rfl, ?_⟩
  · intro h
    exact absurd h.1 (by decide)
  · intro h
    exact absurd h (by decide)

/-- C8 amended.  Adam's entry point never delegates to the densify fallback:
outside its supported all-row-sparse list it always fails fatally — with the
unsupported-storage error whenever mean and var storage agree with the
weight, and with the inconsistent-storage check error otherwise.  SGD's entry
point delegates every unsupported combination to the fallback.  SGD-momentum
delegates every unsupported combination whose momentum storage equals the
weight storage, and fails fatally at its consistency check on a mismatch,
before any fallback. -/
theorem dispatch_asymmetry_amended (ws gs ms vs os : StorageType) :
    (¬ AdamSupported ws gs ms vs os →
      AdamUpdateExDispatch ws gs ms vs os ≠ .fallback ∧
      (AdamUpdateExDispatch ws gs ms vs os = .fatalInconsistent ∨
        AdamUpdateExDispatch ws gs ms vs os = .fatalUnsupported) ∧
      (ms = ws → vs = ws →
        AdamUpdateExDispatch ws gs ms vs os = .fatalUnsupported)) ∧
    (¬ SGDSupported ws gs → SGDUpdateExDispatch ws gs = .fallback) ∧
    (¬ SGDMomSupported ws gs ms → ws = ms →
      SGDMomUpdateExDispatch ws gs ms = .fallback) ∧
    (ws ≠ ms → SGDMomUpdateExDispatch ws gs ms = .fatalInconsistent) := by
  revert os vs ms gs ws
  intro ws
  cases ws <;> (intro gs; cases gs <;> (intro ms; cases ms <;>
    (intro vs; cases vs <;> (intro os; cases os <;> exact (by decide)))))

theorem dispatch_asymmetry_amended_witness :
    (¬ AdamSupported .kRowSparseStorage .kDefaultStorage .kRowSparseStorage
        .kRowSparseStorage .kRowSparseStorage ∧
      ¬ SGDSupported .kDefaultStorage .kRowSparseStorage ∧
      ¬ SGDMomSupported .kDefaultStorage .kRowSparseStorage .kDefaultStorage ∧
      StorageType.kDefaultStorage = .kDefaultStorage) ∧
    (AdamUpdateExDispatch .kRowSparseStorage .kDefaultStorage .kRowSparseStorage
        .kRowSparseStorage .kRowSparseStorage ≠ .fallback ∧
      SGDUpdateExDispatch .kDefaultStorage .kRowSparseStorage = .fallback ∧
      SGDMomUpdateExDispatch .kDefaultStorage .kRowSparseStorage
        .kDefaultStorage = .fallback) :=
  ⟨⟨by decide, by decide, by decide, rfl⟩,
    ((dispatch_asymmetry_amended .kRowSparseStorage .kDefaultStorage
      .kRowSparseStorage .kRowSparseStorage .kRowSparseStorage).1
      (by decide)).1,
    (dispatch_asymmetry_amended .kDefaultStorage .kRowSparseStorage
      .kDefaultStorage .kDefaultStorage .kDefaultStorage).2.1 (by decide),
    (dispatch_asymmetry_amended .kDefaultStorage .kRowSparseStorage
      .kDefaultStorage .kDefaultStorage .kDefaultStorage).2.2.1 (by decide) rfl⟩

/-- C9.  The dense Adam and both dense RMSProp entry points overwrite the
gradient input in place with `rescale_grad * grad + wd * weight` before
computing the state and output updates; the dense SGD and SGD-momentum
kernels read the gradient without modifying it. -/
theorem dense_grad_overwritten (sqrtF : ℚ → ℚ) (n : ℕ)
    (weight grad mom mean var state_n state_g delta out : ℕ → ℚ)
    (ps : SGDParam) (pm : SGDMomParam) (pa : AdamParam)
    (pra : RMSPropAlexParam) (pr : RMSPropParam) (req : OpReqType) (i : ℕ)
    (hi : i < n) :
    ((AdamUpdate sqrtF n weight grad mean var pa req out).1 i =
      pa.rescale_grad * grad i + pa.wd * weight i) ∧
    ((RMSPropAlexUpdate sqrtF n weight grad state_n state_g delta pra req out).1 i =
      pra.rescale_grad * grad i + pra.wd * weight i) ∧
    ((RMSPropUpdate sqrtF n weight grad state_n pr req out).1 i =
      pr.rescale_grad * grad i + pr.wd * weight i) ∧
    ((SGDUpdate n weight grad ps req out).1 = grad) ∧
    ((SGDMomUpdate n weight grad mom pm req out).1 = grad) := by
  refine ⟨?_, ?_, ?_, rfl, rfl⟩
  · simp only [AdamUpdate, if_pos hi]
  · simp only [RMSPropAlexUpdate, if_pos hi]
  · simp only [RMSPropUpdate, if_pos hi]

theorem dense_grad_overwritten_witness :
    0 < 1 ∧
    ((AdamUpdate (fun x => x) 1 (fun _ => 2) (fun _ => 3) (fun _ => 0)
        (fun _ => 0) ⟨1/1000, 9/10, 999/1000, 1/100000000, 1/8, 1/2, -1⟩
        .kWriteTo (fun _ => 0)).1 0 = (1/2 : ℚ) * 3 + (1/8) * 2) ∧
    ((SGDUpdate 1 (fun _ => 2) (fun _ => 3) ⟨1, 0, 1, -1⟩ .kWriteTo
        (fun _ => 0)).1 = (fun _ => 3)) :=
  ⟨by decide,
    (dense_grad_overwritten (fun x => x) 1 (fun _ => 2) (fun _ => 3)
      (fun _ => 5) (fun _ => 0) (fun _ => 0) (fun _ => 0) (fun _ => 0)
      (fun _ => 0) (fun _ => 0) ⟨1, 0, 1, -1⟩ ⟨1, 1, 0, 1, -1⟩
      ⟨1/1000, 9/10, 999/1000, 1/100000000, 1/8, 1/2, -1⟩
      ⟨1, 1, 1, 1, 0, 1, -1, -1⟩ ⟨1, 1, 1, 0, 1, -1, -1⟩ .kWriteTo 0
      (by decide)).1,
    (dense_grad_overwritten (fun x => x) 1 (fun _ => 2) (fun _ => 3)
      (fun _ => 5) (fun _ => 0) (fun _ => 0) (fun _ => 0) (fun _ => 0)
      (fun _ => 0) (fun _ => 0) ⟨1, 0, 1, -1⟩ ⟨1, 1, 0, 1, -1⟩
      ⟨1/1000, 9/10, 999/1000, 1/100000000, 1/8, 1/2, -1⟩
      ⟨1, 1, 1, 1, 0, 1, -1, -1⟩ ⟨1, 1, 1, 0, 1, -1, -1⟩ .kWriteTo 0
      (by decide)).2.2.2.1⟩

/-- C10.  The dense SGD-momentum kernels (standard and mixed precision)
update the momentum buffer in place for every write mode — the stored
momentum value is the update formula, independent of `req`, even for
`kNullOp` where the output is untouched; the mixed-precision kernel also
always updates the float32 master weight. -/
theorem dense_mom_updated_unconditionally (n : ℕ)
    (weight grad mom mom32 weight32 out : ℕ → ℚ) (p : SGDMomParam)
    (req : OpReqType) (i : ℕ) (hi : i < n) :
    ((SGDMomUpdate n weight grad mom p req out).2.1 i =
      SGDMomKernelMomNew mom weight grad p i) ∧
    ((SGDMomUpdate n weight grad mom p .kNullOp out).2.2 i = out i) ∧
    ((MP_SGDMomUpdate n weight grad mom32 weight32 p req out).1 i =
      MP_SGDMomKernelMomNew mom32 weight32 grad p i) ∧
    ((MP_SGDMomUpdate n weight grad mom32 weight32 p req out).2.1 i =
      weight32 i + MP_SGDMomKernelMomNew mom32 weight32 grad p i) ∧
    ((MP_SGDMomUpdate n weight grad mom32 weight32 p .kNullOp out).2.2 i =
      out i) := by
  refine ⟨?_, ?_, ?_, ?_, ?_⟩
  · simp only [SGDMomUpdate, if_pos hi]
  · simp only [SGDMomUpdate, if_pos hi, kernelAssign_null]
  · simp only [MP_SGDMomUpdate, if_pos hi]
  · simp only [MP_SGDMomUpdate, if_pos hi]
  · simp only [MP_SGDMomUpdate, if_pos hi, kernelAssign_null]

theorem dense_mom_updated_unconditionally_witness :
    0 < 1 ∧
    ((SGDMomUpdate 1 (fun _ => 2) (fun _ => 3) (fun _ => 5) ⟨1/2, 1/4, 1/8, 1, -1⟩
        .kNullOp (fun _ => 7)).2.1 0 =
      SGDMomKernelMomNew (fun _ => 5) (fun _ => 2) (fun _ => 3)
        ⟨1/2, 1/4, 1/8, 1, -1⟩ 0) ∧
    ((SGDMomUpdate 1 (fun _ => 2) (fun _ => 3) (fun _ => 5) ⟨1/2, 1/4, 1/8, 1, -1⟩
        .kNullOp (fun _ => 7)).2.2 0 = 7) ∧
    ((MP_SGDMomUpdate 1 (fun _ => 2) (fun _ => 3) (fun _ => 5) (fun _ => 6)
        ⟨1/2, 1/4, 1/8, 1, -1⟩ .kNullOp (fun _ => 7)).1 0 =
      MP_SGDMomKernelMomNew (fun _ => 5) (fun _ => 6) (fun _ => 3)
        ⟨1/2, 1/4, 1/8, 1, -1⟩ 0) :=
  ⟨by decide,
    (dense_mom_updated_unconditionally 1 (fun _ => 2) (fun _ => 3) (fun _ => 5)
      (fun _ => 5) (fun _ => 6) (fun _ => 7) ⟨1/2, 1/4, 1/8, 1, -1⟩ .kNullOp 0
      (by decide)).1,
    (dense_mom_updated_unconditionally 1 (fun _ => 2) (fun _ => 3) (fun _ => 5)
      (fun _ => 5) (fun _ => 6) (fun _ => 7) ⟨1/2, 1/4, 1/8, 1, -1⟩ .kNullOp 0
      (by decide)).2.1,
    (dense_mom_updated_unconditionally 1 (fun _ => 2) (fun _ => 3) (fun _ => 5)
      (fun _ => 5) (fun _ => 6) (fun _ => 7) ⟨1/2, 1/4, 1/8, 1, -1⟩ .kNullOp 0
      (by decide)).2.2.1⟩

end MxOpt
